import Mathlib

/-!
Shallow embedding of the dispatch-and-render registry of src/src/isomedia/box_dump.c
(gpac, ISO media box-tree dumper): the static table defined_box_types, the production
dispatcher gf_box_dump_ex, the enumeration/synthesis API gf_isom_dump_supported_box,
the top-level driver gf_isom_dump, and the renderers named by the claims
(reftype_dump, ireftype_dump, trgt_dump, stts_dump, stco_dump, sbgp_dump, stbl_dump,
dinf_dump, trif_dump, nalm_dump).  Output to the trace FILE is modelled as a list of
structured events; the GF_LOG error channel as a separate list.
-/

namespace BoxDump

/-- Error codes returned by the dump functions (GF_Err in the source; only the values
this file produces are modelled). -/
inductive GF_Err
  | GF_OK
  | GF_BAD_PARAM
  | GF_ISOM_INVALID_FILE
deriving DecidableEq

/-- Value of an XML attribute as printed by the renderers: a decimal number, a 4cc
rendered through gf_4cc_to_str, a plain string, a list of numbers (e.g. the Tracks
attribute), or the empty value used by schema placeholders. -/
inductive AttrVal
  | num (n : Nat)
  | fourCC (c : Nat)
  | str (s : String)
  | nums (l : List Nat)
  | empty
deriving DecidableEq

/-- One event written to the trace stream.  openElem is a tag opened with a trailing
gt sign, subElem a self-closed element, closeElem a closing tag; unclosedElem is an
opening tag the source never terminates (trif_dump with tile_group 0).  nullBoxExpected
and nullBoxGeneric are the two fprintf branches of NullBoxErr, badTopBox the comment of
BadTopBoxErr, warn a warning comment, comment an informational comment carrying a
number, invoke the invocation of a registered renderer by the dispatcher (the renderer
body is modelled separately where a claim needs it).  xmlDecl and docComment are the
two header lines of gf_isom_dump. -/
inductive Out
  | openElem (name : String) (attrs : List (String × AttrVal))
  | subElem (name : String) (attrs : List (String × AttrVal))
  | closeElem (name : String)
  | unclosedElem (name : String) (attrs : List (String × AttrVal))
  | nullBoxExpected (c : Nat)
  | nullBoxGeneric
  | badTopBox (t : Nat)
  | warn (s : String)
  | comment (s : String) (n : Nat)
  | invoke (fn : String) (boxType : Nat)
  | xmlDecl
  | docComment
deriving DecidableEq

/-- True for the element-shaped events; diagnostics (comments, warnings, null-box and
bad-top-box markers) and dispatcher events are not elements. -/
def Out.isElem : Out → Bool
  | .openElem _ _ => true
  | .subElem _ _ => true
  | .closeElem _ => true
  | .unclosedElem _ _ => true
  | _ => false

/-- One row of the static registry table (struct box_def in the source). -/
structure BoxDef where
  box_4cc : Nat
  dump_fn : String
  alt_4cc : Nat
  max_version : Nat
  flags : Nat
deriving DecidableEq

/-- BOX_DUMP_DEF(__type, __fun) expands to a row with all discriminators zero. -/
def BOX_DUMP_DEF (t : Nat) (f : String) : BoxDef := ⟨t, f, 0, 0, 0⟩

/-- FBOX_DUMP_DEF(__type, __fun, __max_v) sets only the max_version column. -/
def FBOX_DUMP_DEF (t : Nat) (f : String) (v : Nat) : BoxDef := ⟨t, f, 0, v, 0⟩

/-- TREF_DUMP_DEF(__type, __fun, __4cc) stores the sub-type code in the alt_4cc column. -/
def TREF_DUMP_DEF (t : Nat) (f : String) (c : Nat) : BoxDef := ⟨t, f, c, 0, 0⟩

/-- TRGT_DUMP_DEF(__type, __fun, __4cc, max_version) expands, as written in the source,
to a row whose alt_4cc column is zero: the __4cc argument is discarded. -/
def TRGT_DUMP_DEF (t : Nat) (f : String) (c : Nat) (v : Nat) : BoxDef := ⟨t, f, 0, v, 0⟩

/-- GF_4CC packs four byte values into one 32-bit code. -/
def GF_4CC (a b c d : Nat) : Nat := ((a * 256 + b) * 256 + c) * 256 + d

/-- Modelled from the spec: the numeric values of the 4-byte type-code constants
(GF_ISOM_BOX_TYPE_* and GF_ISOM_REF_* / GF_ISOM_SAMPLE_GROUP_*) are defined in headers
outside src/.  The registry and the claims depend only on which codes coincide and which
differ, never on the concrete numerals, so each distinct constant name is given a distinct
nonzero code here (zero is the C null code tested by truthiness). -/
def GF_ISOM_BOX_TYPE_UNKNOWN : Nat := 1
def GF_ISOM_BOX_TYPE_REFT : Nat := 2
def GF_ISOM_BOX_TYPE_REFI : Nat := 3
def GF_ISOM_BOX_TYPE_FREE : Nat := 4
def GF_ISOM_BOX_TYPE_SKIP : Nat := 5
def GF_ISOM_BOX_TYPE_MDAT : Nat := 6
def GF_ISOM_BOX_TYPE_MOOV : Nat := 7
def GF_ISOM_BOX_TYPE_MVHD : Nat := 8
def GF_ISOM_BOX_TYPE_MDHD : Nat := 9
def GF_ISOM_BOX_TYPE_VMHD : Nat := 10
def GF_ISOM_BOX_TYPE_SMHD : Nat := 11
def GF_ISOM_BOX_TYPE_HMHD : Nat := 12
def GF_ISOM_BOX_TYPE_ODHD : Nat := 13
def GF_ISOM_BOX_TYPE_CRHD : Nat := 14
def GF_ISOM_BOX_TYPE_SDHD : Nat := 15
def GF_ISOM_BOX_TYPE_NMHD : Nat := 16
def GF_ISOM_BOX_TYPE_STHD : Nat := 17
def GF_ISOM_BOX_TYPE_STBL : Nat := 18
def GF_ISOM_BOX_TYPE_DINF : Nat := 19
def GF_ISOM_BOX_TYPE_URL : Nat := 20
def GF_ISOM_BOX_TYPE_URN : Nat := 21
def GF_ISOM_BOX_TYPE_CPRT : Nat := 22
def GF_ISOM_BOX_TYPE_KIND : Nat := 23
def GF_ISOM_BOX_TYPE_HDLR : Nat := 24
def GF_ISOM_BOX_TYPE_IODS : Nat := 25
def GF_ISOM_BOX_TYPE_TRAK : Nat := 26
def GF_ISOM_BOX_TYPE_MP4S : Nat := 27
def GF_ISOM_BOX_TYPE_MP4V : Nat := 28
def GF_ISOM_BOX_TYPE_MP4A : Nat := 29
def GF_ISOM_BOX_TYPE_GNRM : Nat := 30
def GF_ISOM_BOX_TYPE_GNRV : Nat := 31
def GF_ISOM_BOX_TYPE_GNRA : Nat := 32
def GF_ISOM_BOX_TYPE_EDTS : Nat := 33
def GF_ISOM_BOX_TYPE_UDTA : Nat := 34
def GF_ISOM_BOX_TYPE_DREF : Nat := 35
def GF_ISOM_BOX_TYPE_STSD : Nat := 36
def GF_ISOM_BOX_TYPE_STTS : Nat := 37
def GF_ISOM_BOX_TYPE_CTTS : Nat := 38
def GF_ISOM_BOX_TYPE_CSLG : Nat := 39
def GF_ISOM_BOX_TYPE_STSH : Nat := 40
def GF_ISOM_BOX_TYPE_ELST : Nat := 41
def GF_ISOM_BOX_TYPE_STSC : Nat := 42
def GF_ISOM_BOX_TYPE_STZ2 : Nat := 43
def GF_ISOM_BOX_TYPE_STSZ : Nat := 44
def GF_ISOM_BOX_TYPE_STCO : Nat := 45
def GF_ISOM_BOX_TYPE_STSS : Nat := 46
def GF_ISOM_BOX_TYPE_STDP : Nat := 47
def GF_ISOM_BOX_TYPE_SDTP : Nat := 48
def GF_ISOM_BOX_TYPE_CO64 : Nat := 49
def GF_ISOM_BOX_TYPE_ESDS : Nat := 50
def GF_ISOM_BOX_TYPE_MINF : Nat := 51
def GF_ISOM_BOX_TYPE_TKHD : Nat := 52
def GF_ISOM_BOX_TYPE_TREF : Nat := 53
def GF_ISOM_BOX_TYPE_MDIA : Nat := 54
def GF_ISOM_BOX_TYPE_MFRA : Nat := 55
def GF_ISOM_BOX_TYPE_TFRA : Nat := 56
def GF_ISOM_BOX_TYPE_ELNG : Nat := 57
def GF_ISOM_BOX_TYPE_CHPL : Nat := 58
def GF_ISOM_BOX_TYPE_PDIN : Nat := 59
def GF_ISOM_BOX_TYPE_SBGP : Nat := 60
def GF_ISOM_BOX_TYPE_SGPD : Nat := 61
def GF_ISOM_BOX_TYPE_SAIZ : Nat := 62
def GF_ISOM_BOX_TYPE_SAIO : Nat := 63
def GF_ISOM_BOX_TYPE_RTP_STSD : Nat := 64
def GF_ISOM_BOX_TYPE_RTPO : Nat := 65
def GF_ISOM_BOX_TYPE_HNTI : Nat := 66
def GF_ISOM_BOX_TYPE_SDP : Nat := 67
def GF_ISOM_BOX_TYPE_HINF : Nat := 68
def GF_ISOM_BOX_TYPE_RELY : Nat := 69
def GF_ISOM_BOX_TYPE_TIMS : Nat := 70
def GF_ISOM_BOX_TYPE_TSRO : Nat := 71
def GF_ISOM_BOX_TYPE_SNRO : Nat := 72
def GF_ISOM_BOX_TYPE_TRPY : Nat := 73
def GF_ISOM_BOX_TYPE_NUMP : Nat := 74
def GF_ISOM_BOX_TYPE_TOTL : Nat := 75
def GF_ISOM_BOX_TYPE_NPCK : Nat := 76
def GF_ISOM_BOX_TYPE_TPYL : Nat := 77
def GF_ISOM_BOX_TYPE_TPAY : Nat := 78
def GF_ISOM_BOX_TYPE_MAXR : Nat := 79
def GF_ISOM_BOX_TYPE_DMED : Nat := 80
def GF_ISOM_BOX_TYPE_DIMM : Nat := 81
def GF_ISOM_BOX_TYPE_DREP : Nat := 82
def GF_ISOM_BOX_TYPE_TMIN : Nat := 83
def GF_ISOM_BOX_TYPE_TMAX : Nat := 84
def GF_ISOM_BOX_TYPE_PMAX : Nat := 85
def GF_ISOM_BOX_TYPE_DMAX : Nat := 86
def GF_ISOM_BOX_TYPE_PAYT : Nat := 87
def GF_ISOM_BOX_TYPE_NAME : Nat := 88
def GF_ISOM_BOX_TYPE_FTYP : Nat := 89
def GF_ISOM_BOX_TYPE_STYP : Nat := 90
def GF_ISOM_BOX_TYPE_PADB : Nat := 91
def GF_ISOM_BOX_TYPE_MVEX : Nat := 92
def GF_ISOM_BOX_TYPE_MEHD : Nat := 93
def GF_ISOM_BOX_TYPE_TREX : Nat := 94
def GF_ISOM_BOX_TYPE_TREP : Nat := 95
def GF_ISOM_BOX_TYPE_MOOF : Nat := 96
def GF_ISOM_BOX_TYPE_MFHD : Nat := 97
def GF_ISOM_BOX_TYPE_TRAF : Nat := 98
def GF_ISOM_BOX_TYPE_TFHD : Nat := 99
def GF_ISOM_BOX_TYPE_TRUN : Nat := 100
def GF_ISOM_BOX_TYPE_TFDT : Nat := 101
def GF_ISOM_BOX_TYPE_SUBS : Nat := 102
def GF_ISOM_BOX_TYPE_RVCC : Nat := 103
def GF_ISOM_BOX_TYPE_TRGR : Nat := 104
def GF_ISOM_BOX_TYPE_TRGT : Nat := 105
def GF_ISOM_BOX_TYPE_VOID : Nat := 106
def GF_ISOM_BOX_TYPE_STSF : Nat := 107
def GF_ISOM_SUBTYPE_3GP_AMR : Nat := 108
def GF_ISOM_SUBTYPE_3GP_AMR_WB : Nat := 109
def GF_ISOM_SUBTYPE_3GP_QCELP : Nat := 110
def GF_ISOM_SUBTYPE_3GP_EVRC : Nat := 111
def GF_ISOM_SUBTYPE_3GP_SMV : Nat := 112
def GF_ISOM_SUBTYPE_3GP_H263 : Nat := 113
def GF_ISOM_BOX_TYPE_DAMR : Nat := 114
def GF_ISOM_BOX_TYPE_DEVC : Nat := 115
def GF_ISOM_BOX_TYPE_DQCP : Nat := 116
def GF_ISOM_BOX_TYPE_DSMV : Nat := 117
def GF_ISOM_BOX_TYPE_D263 : Nat := 118
def GF_ISOM_BOX_TYPE_AVCC : Nat := 119
def GF_ISOM_BOX_TYPE_SVCC : Nat := 120
def GF_ISOM_BOX_TYPE_HVCC : Nat := 121
def GF_ISOM_BOX_TYPE_LHVC : Nat := 122
def GF_ISOM_BOX_TYPE_BTRT : Nat := 123
def GF_ISOM_BOX_TYPE_M4DS : Nat := 124
def GF_ISOM_BOX_TYPE_AVC1 : Nat := 125
def GF_ISOM_BOX_TYPE_AVC2 : Nat := 126
def GF_ISOM_BOX_TYPE_AVC3 : Nat := 127
def GF_ISOM_BOX_TYPE_AVC4 : Nat := 128
def GF_ISOM_BOX_TYPE_SVC1 : Nat := 129
def GF_ISOM_BOX_TYPE_HVC1 : Nat := 130
def GF_ISOM_BOX_TYPE_HEV1 : Nat := 131
def GF_ISOM_BOX_TYPE_HVC2 : Nat := 132
def GF_ISOM_BOX_TYPE_HEV2 : Nat := 133
def GF_ISOM_BOX_TYPE_LHV1 : Nat := 134
def GF_ISOM_BOX_TYPE_LHE1 : Nat := 135
def GF_ISOM_BOX_TYPE_HVT1 : Nat := 136
def GF_ISOM_BOX_TYPE_PASP : Nat := 137
def GF_ISOM_BOX_TYPE_FTAB : Nat := 138
def GF_ISOM_BOX_TYPE_TX3G : Nat := 139
def GF_ISOM_BOX_TYPE_TEXT : Nat := 140
def GF_ISOM_BOX_TYPE_STYL : Nat := 141
def GF_ISOM_BOX_TYPE_HLIT : Nat := 142
def GF_ISOM_BOX_TYPE_HCLR : Nat := 143
def GF_ISOM_BOX_TYPE_KROK : Nat := 144
def GF_ISOM_BOX_TYPE_DLAY : Nat := 145
def GF_ISOM_BOX_TYPE_HREF : Nat := 146
def GF_ISOM_BOX_TYPE_TBOX : Nat := 147
def GF_ISOM_BOX_TYPE_BLNK : Nat := 148
def GF_ISOM_BOX_TYPE_TWRP : Nat := 149
def GF_ISOM_BOX_TYPE_PSSH : Nat := 150
def GF_ISOM_BOX_TYPE_TENC : Nat := 151
def GF_ISOM_BOX_TYPE_IKMS : Nat := 152
def GF_ISOM_BOX_TYPE_ISFM : Nat := 153
def GF_ISOM_BOX_TYPE_META : Nat := 154
def GF_ISOM_BOX_TYPE_XML : Nat := 155
def GF_ISOM_BOX_TYPE_BXML : Nat := 156
def GF_ISOM_BOX_TYPE_ILOC : Nat := 157
def GF_ISOM_BOX_TYPE_PITM : Nat := 158
def GF_ISOM_BOX_TYPE_IPRO : Nat := 159
def GF_ISOM_BOX_TYPE_INFE : Nat := 160
def GF_ISOM_BOX_TYPE_IINF : Nat := 161
def GF_ISOM_BOX_TYPE_IREF : Nat := 162
def GF_ISOM_BOX_TYPE_SINF : Nat := 163
def GF_ISOM_BOX_TYPE_FRMA : Nat := 164
def GF_ISOM_BOX_TYPE_SCHM : Nat := 165
def GF_ISOM_BOX_TYPE_SCHI : Nat := 166
def GF_ISOM_BOX_TYPE_ENCA : Nat := 167
def GF_ISOM_BOX_TYPE_ENCV : Nat := 168
def GF_ISOM_BOX_TYPE_ENCS : Nat := 169
def GF_ISOM_BOX_TYPE_PRFT : Nat := 170
def GF_ISOM_BOX_TYPE_0xA9NAM : Nat := 171
def GF_ISOM_BOX_TYPE_0xA9CMT : Nat := 172
def GF_ISOM_BOX_TYPE_0xA9DAY : Nat := 173
def GF_ISOM_BOX_TYPE_0xA9ART : Nat := 174
def GF_ISOM_BOX_TYPE_0xA9TRK : Nat := 175
def GF_ISOM_BOX_TYPE_0xA9ALB : Nat := 176
def GF_ISOM_BOX_TYPE_0xA9COM : Nat := 177
def GF_ISOM_BOX_TYPE_0xA9WRT : Nat := 178
def GF_ISOM_BOX_TYPE_0xA9TOO : Nat := 179
def GF_ISOM_BOX_TYPE_0xA9CPY : Nat := 180
def GF_ISOM_BOX_TYPE_0xA9DES : Nat := 181
def GF_ISOM_BOX_TYPE_0xA9GEN : Nat := 182
def GF_ISOM_BOX_TYPE_0xA9GRP : Nat := 183
def GF_ISOM_BOX_TYPE_GNRE : Nat := 184
def GF_ISOM_BOX_TYPE_DISK : Nat := 185
def GF_ISOM_BOX_TYPE_TRKN : Nat := 186
def GF_ISOM_BOX_TYPE_TMPO : Nat := 187
def GF_ISOM_BOX_TYPE_CPIL : Nat := 188
def GF_ISOM_BOX_TYPE_COVR : Nat := 189
def GF_ISOM_BOX_TYPE_iTunesSpecificInfo : Nat := 190
def GF_ISOM_BOX_TYPE_ABST : Nat := 191
def GF_ISOM_BOX_TYPE_AFRA : Nat := 192
def GF_ISOM_BOX_TYPE_ASRT : Nat := 193
def GF_ISOM_BOX_TYPE_AFRT : Nat := 194
def GF_ISOM_BOX_TYPE_ILST : Nat := 195
def GF_ISOM_BOX_TYPE_OHDR : Nat := 196
def GF_ISOM_BOX_TYPE_GRPI : Nat := 197
def GF_ISOM_BOX_TYPE_MDRI : Nat := 198
def GF_ISOM_BOX_TYPE_ODTT : Nat := 199
def GF_ISOM_BOX_TYPE_ODRB : Nat := 200
def GF_ISOM_BOX_TYPE_ODKM : Nat := 201
def GF_ISOM_BOX_TYPE_ODAF : Nat := 202
def GF_ISOM_BOX_TYPE_TSEL : Nat := 203
def GF_ISOM_BOX_TYPE_STRK : Nat := 204
def GF_ISOM_BOX_TYPE_STRI : Nat := 205
def GF_ISOM_BOX_TYPE_METX : Nat := 206
def GF_ISOM_BOX_TYPE_METT : Nat := 207
def GF_ISOM_BOX_TYPE_DIMS : Nat := 208
def GF_ISOM_BOX_TYPE_DIMC : Nat := 209
def GF_ISOM_BOX_TYPE_DIST : Nat := 210
def GF_ISOM_BOX_TYPE_AC3 : Nat := 211
def GF_ISOM_BOX_TYPE_DAC3 : Nat := 212
def GF_ISOM_BOX_TYPE_LSR1 : Nat := 213
def GF_ISOM_BOX_TYPE_LSRC : Nat := 214
def GF_ISOM_BOX_TYPE_SIDX : Nat := 215
def GF_ISOM_BOX_TYPE_SSIX : Nat := 216
def GF_ISOM_BOX_TYPE_LEVA : Nat := 217
def GF_ISOM_BOX_TYPE_PCRB : Nat := 218
def GF_ISOM_BOX_TYPE_SENC : Nat := 219
def GF_ISOM_BOX_TYPE_UUID : Nat := 220
def GF_ISOM_BOX_TYPE_STXT : Nat := 221
def GF_ISOM_BOX_TYPE_TXTC : Nat := 222
def GF_ISOM_BOX_TYPE_VTTC : Nat := 223
def GF_ISOM_BOX_TYPE_CTIM : Nat := 224
def GF_ISOM_BOX_TYPE_IDEN : Nat := 225
def GF_ISOM_BOX_TYPE_STTG : Nat := 226
def GF_ISOM_BOX_TYPE_PAYL : Nat := 227
def GF_ISOM_BOX_TYPE_VTTA : Nat := 228
def GF_ISOM_BOX_TYPE_VTCU : Nat := 229
def GF_ISOM_BOX_TYPE_VTTE : Nat := 230
def GF_ISOM_BOX_TYPE_WVTT : Nat := 231
def GF_ISOM_BOX_TYPE_STPP : Nat := 232
def GF_ISOM_BOX_TYPE_SBTT : Nat := 233
def GF_ISOM_BOX_TYPE_ADKM : Nat := 234
def GF_ISOM_BOX_TYPE_AHDR : Nat := 235
def GF_ISOM_BOX_TYPE_ADAF : Nat := 236
def GF_ISOM_BOX_TYPE_APRM : Nat := 237
def GF_ISOM_BOX_TYPE_AEIB : Nat := 238
def GF_ISOM_BOX_TYPE_AKEY : Nat := 239
def GF_ISOM_BOX_TYPE_FLXS : Nat := 240
def GF_ISOM_BOX_TYPE_ISPE : Nat := 241
def GF_ISOM_BOX_TYPE_COLR : Nat := 242
def GF_ISOM_BOX_TYPE_PIXI : Nat := 243
def GF_ISOM_BOX_TYPE_RLOC : Nat := 244
def GF_ISOM_BOX_TYPE_IROT : Nat := 245
def GF_ISOM_BOX_TYPE_IPCO : Nat := 246
def GF_ISOM_BOX_TYPE_IPRP : Nat := 247
def GF_ISOM_BOX_TYPE_IPMA : Nat := 248
def GF_ISOM_BOX_TYPE_GRPL : Nat := 249
def GF_ISOM_REF_OD : Nat := 250
def GF_ISOM_REF_DECODE : Nat := 251
def GF_ISOM_REF_OCR : Nat := 252
def GF_ISOM_REF_IPI : Nat := 253
def GF_ISOM_REF_META : Nat := 254
def GF_ISOM_REF_HINT : Nat := 255
def GF_ISOM_REF_CHAP : Nat := 256
def GF_ISOM_REF_BASE : Nat := 257
def GF_ISOM_REF_SCAL : Nat := 258
def GF_ISOM_REF_TBAS : Nat := 259
def GF_ISOM_REF_SABT : Nat := 260
def GF_ISOM_REF_OREF : Nat := 261
def GF_ISOM_REF_FONT : Nat := 262
def GF_ISOM_REF_HIND : Nat := 263
def GF_ISOM_REF_VDEP : Nat := 264
def GF_ISOM_REF_VPLX : Nat := 265
def GF_ISOM_REF_SUBT : Nat := 266
def GF_ISOM_SAMPLE_GROUP_ROLL : Nat := 267
def GF_ISOM_SAMPLE_GROUP_SEIG : Nat := 268
def GF_ISOM_SAMPLE_GROUP_OINF : Nat := 269
def GF_ISOM_SAMPLE_GROUP_LINF : Nat := 270
def GF_ISOM_SAMPLE_GROUP_TRIF : Nat := 271
def GF_ISOM_SAMPLE_GROUP_NALM : Nat := 272

/-- Code written GF_4CC of the four characters i l o c in the REFI table row. -/
def GF_4CC_iloc : Nat := GF_4CC 105 108 111 99

/-- Code written GF_4CC of the four characters m s r c in the TRGT table row. -/
def GF_4CC_msrc : Nat := GF_4CC 109 115 114 99

/-- The static registry table, transcribed row by row in declaration order from
defined_box_types in the source, with every conditionally compiled section
(fragments, adobe, ttxt, vtt) included as in a default build. -/
def defined_box_types : List BoxDef := [
  BOX_DUMP_DEF GF_ISOM_BOX_TYPE_UNKNOWN "unkn_dump",
  TREF_DUMP_DEF GF_ISOM_BOX_TYPE_REFT "reftype_dump" GF_ISOM_REF_OD,
  TREF_DUMP_DEF GF_ISOM_BOX_TYPE_REFT "reftype_dump" GF_ISOM_REF_DECODE,
  TREF_DUMP_DEF GF_ISOM_BOX_TYPE_REFT "reftype_dump" GF_ISOM_REF_OCR,
  TREF_DUMP_DEF GF_ISOM_BOX_TYPE_REFT "reftype_dump" GF_ISOM_REF_IPI,
  TREF_DUMP_DEF GF_ISOM_BOX_TYPE_REFT "reftype_dump" GF_ISOM_REF_META,
  TREF_DUMP_DEF GF_ISOM_BOX_TYPE_REFT "reftype_dump" GF_ISOM_REF_HINT,
  TREF_DUMP_DEF GF_ISOM_BOX_TYPE_REFT "reftype_dump" GF_ISOM_REF_CHAP,
  TREF_DUMP_DEF GF_ISOM_BOX_TYPE_REFT "reftype_dump" GF_ISOM_REF_BASE,
  TREF_DUMP_DEF GF_ISOM_BOX_TYPE_REFT "reftype_dump" GF_ISOM_REF_SCAL,
  TREF_DUMP_DEF GF_ISOM_BOX_TYPE_REFT "reftype_dump" GF_ISOM_REF_TBAS,
  TREF_DUMP_DEF GF_ISOM_BOX_TYPE_REFT "reftype_dump" GF_ISOM_REF_SABT,
  TREF_DUMP_DEF GF_ISOM_BOX_TYPE_REFT "reftype_dump" GF_ISOM_REF_OREF,
  TREF_DUMP_DEF GF_ISOM_BOX_TYPE_REFT "reftype_dump" GF_ISOM_REF_FONT,
  TREF_DUMP_DEF GF_ISOM_BOX_TYPE_REFT "reftype_dump" GF_ISOM_REF_HIND,
  TREF_DUMP_DEF GF_ISOM_BOX_TYPE_REFT "reftype_dump" GF_ISOM_REF_VDEP,
  TREF_DUMP_DEF GF_ISOM_BOX_TYPE_REFT "reftype_dump" GF_ISOM_REF_VPLX,
  TREF_DUMP_DEF GF_ISOM_BOX_TYPE_REFT "reftype_dump" GF_ISOM_REF_SUBT,
  TREF_DUMP_DEF GF_ISOM_BOX_TYPE_REFI "ireftype_dump" GF_ISOM_REF_TBAS,
  TREF_DUMP_DEF GF_ISOM_BOX_TYPE_REFI "ireftype_dump" GF_4CC_iloc,
  BOX_DUMP_DEF GF_ISOM_BOX_TYPE_FREE "free_dump",
  BOX_DUMP_DEF GF_ISOM_BOX_TYPE_SKIP "free_dump",
  BOX_DUMP_DEF GF_ISOM_BOX_TYPE_MDAT "mdat_dump",
  BOX_DUMP_DEF GF_ISOM_BOX_TYPE_MOOV "moov_dump",
  FBOX_DUMP_DEF GF_ISOM_BOX_TYPE_MVHD "mvhd_dump" 1,
  FBOX_DUMP_DEF GF_ISOM_BOX_TYPE_MDHD "mdhd_dump" 1,
  FBOX_DUMP_DEF GF_ISOM_BOX_TYPE_VMHD "vmhd_dump" 0,
  FBOX_DUMP_DEF GF_ISOM_BOX_TYPE_SMHD "smhd_dump" 0,
  FBOX_DUMP_DEF GF_ISOM_BOX_TYPE_HMHD "hmhd_dump" 0,
  FBOX_DUMP_DEF GF_ISOM_BOX_TYPE_ODHD "nmhd_dump" 0,
  FBOX_DUMP_DEF GF_ISOM_BOX_TYPE_CRHD "nmhd_dump" 0,
  FBOX_DUMP_DEF GF_ISOM_BOX_TYPE_SDHD "nmhd_dump" 0,
  FBOX_DUMP_DEF GF_ISOM_BOX_TYPE_NMHD "nmhd_dump" 0,
  FBOX_DUMP_DEF GF_ISOM_BOX_TYPE_STHD "nmhd_dump" 0,
  BOX_DUMP_DEF GF_ISOM_BOX_TYPE_STBL "stbl_dump",
  BOX_DUMP_DEF GF_ISOM_BOX_TYPE_DINF "dinf_dump",
  FBOX_DUMP_DEF GF_ISOM_BOX_TYPE_URL "url_dump" 0,
  FBOX_DUMP_DEF GF_ISOM_BOX_TYPE_URN "urn_dump" 0,
  FBOX_DUMP_DEF GF_ISOM_BOX_TYPE_CPRT "cprt_dump" 1,
  FBOX_DUMP_DEF GF_ISOM_BOX_TYPE_KIND "kind_dump" 0,
  FBOX_DUMP_DEF GF_ISOM_BOX_TYPE_HDLR "hdlr_dump" 0,
  BOX_DUMP_DEF GF_ISOM_BOX_TYPE_IODS "iods_dump",
  BOX_DUMP_DEF GF_ISOM_BOX_TYPE_TRAK "trak_dump",
  BOX_DUMP_DEF GF_ISOM_BOX_TYPE_MP4S "mp4s_dump",
  BOX_DUMP_DEF GF_ISOM_BOX_TYPE_MP4V "mp4v_dump",
  BOX_DUMP_DEF GF_ISOM_BOX_TYPE_MP4A "mp4a_dump",
  BOX_DUMP_DEF GF_ISOM_BOX_TYPE_GNRM "gnrm_dump",
  BOX_DUMP_DEF GF_ISOM_BOX_TYPE_GNRV "gnrv_dump",
  BOX_DUMP_DEF GF_ISOM_BOX_TYPE_GNRA "gnra_dump",
  BOX_DUMP_DEF GF_ISOM_BOX_TYPE_EDTS "edts_dump",
  BOX_DUMP_DEF GF_ISOM_BOX_TYPE_UDTA "udta_dump",
  FBOX_DUMP_DEF GF_ISOM_BOX_TYPE_DREF "dref_dump" 0,
  FBOX_DUMP_DEF GF_ISOM_BOX_TYPE_STSD "stsd_dump" 0,
  FBOX_DUMP_DEF GF_ISOM_BOX_TYPE_STTS "stts_dump" 0,
  FBOX_DUMP_DEF GF_ISOM_BOX_TYPE_CTTS "ctts_dump" 1,
  FBOX_DUMP_DEF GF_ISOM_BOX_TYPE_CSLG "cslg_dump" 1,
  FBOX_DUMP_DEF GF_ISOM_BOX_TYPE_STSH "stsh_dump" 0,
  FBOX_DUMP_DEF GF_ISOM_BOX_TYPE_ELST "elst_dump" 1,
  FBOX_DUMP_DEF GF_ISOM_BOX_TYPE_STSC "stsc_dump" 0,
  FBOX_DUMP_DEF GF_ISOM_BOX_TYPE_STZ2 "stsz_dump" 0,
  BOX_DUMP_DEF GF_ISOM_BOX_TYPE_STSZ "stsz_dump",
  FBOX_DUMP_DEF GF_ISOM_BOX_TYPE_STCO "stco_dump" 0,
  FBOX_DUMP_DEF GF_ISOM_BOX_TYPE_STSS "stss_dump" 0,
  FBOX_DUMP_DEF GF_ISOM_BOX_TYPE_STDP "stdp_dump" 0,
  FBOX_DUMP_DEF GF_ISOM_BOX_TYPE_SDTP "sdtp_dump" 0,
  FBOX_DUMP_DEF GF_ISOM_BOX_TYPE_CO64 "co64_dump" 0,
  BOX_DUMP_DEF GF_ISOM_BOX_TYPE_ESDS "esds_dump",
  BOX_DUMP_DEF GF_ISOM_BOX_TYPE_MINF "minf_dump",
  FBOX_DUMP_DEF GF_ISOM_BOX_TYPE_TKHD "tkhd_dump" 1,
  BOX_DUMP_DEF GF_ISOM_BOX_TYPE_TREF "tref_dump",
  BOX_DUMP_DEF GF_ISOM_BOX_TYPE_MDIA "mdia_dump",
  BOX_DUMP_DEF GF_ISOM_BOX_TYPE_MFRA "mfra_dump",
  FBOX_DUMP_DEF GF_ISOM_BOX_TYPE_TFRA "tfra_dump" 1,
  FBOX_DUMP_DEF GF_ISOM_BOX_TYPE_ELNG "elng_dump" 0,
  BOX_DUMP_DEF GF_ISOM_BOX_TYPE_CHPL "chpl_dump",
  FBOX_DUMP_DEF GF_ISOM_BOX_TYPE_PDIN "dpin_dump" 0,
  FBOX_DUMP_DEF GF_ISOM_BOX_TYPE_SBGP "sbgp_dump" 1,
  FBOX_DUMP_DEF GF_ISOM_BOX_TYPE_SGPD "sgpd_dump" 2,
  TREF_DUMP_DEF GF_ISOM_BOX_TYPE_SGPD "sgpd_dump" GF_ISOM_SAMPLE_GROUP_ROLL,
  TREF_DUMP_DEF GF_ISOM_BOX_TYPE_SGPD "sgpd_dump" GF_ISOM_SAMPLE_GROUP_SEIG,
  TREF_DUMP_DEF GF_ISOM_BOX_TYPE_SGPD "sgpd_dump" GF_ISOM_SAMPLE_GROUP_OINF,
  TREF_DUMP_DEF GF_ISOM_BOX_TYPE_SGPD "sgpd_dump" GF_ISOM_SAMPLE_GROUP_LINF,
  TREF_DUMP_DEF GF_ISOM_BOX_TYPE_SGPD "sgpd_dump" GF_ISOM_SAMPLE_GROUP_TRIF,
  TREF_DUMP_DEF GF_ISOM_BOX_TYPE_SGPD "sgpd_dump" GF_ISOM_SAMPLE_GROUP_NALM,
  ⟨GF_ISOM_BOX_TYPE_SAIZ, "saiz_dump", 0, 0, 0⟩,
  ⟨GF_ISOM_BOX_TYPE_SAIZ, "saiz_dump", 0, 0, 1⟩,
  ⟨ GF_ISOM_BOX_TYPE_SAIO, "saio_dump", 0, 0, 0⟩,
  ⟨ GF_ISOM_BOX_TYPE_SAIO, "saio_dump", 0, 0, 1⟩,
  BOX_DUMP_DEF GF_ISOM_BOX_TYPE_RTP_STSD "ghnt_dump",
  BOX_DUMP_DEF GF_ISOM_BOX_TYPE_RTPO "rtpo_dump",
  BOX_DUMP_DEF GF_ISOM_BOX_TYPE_HNTI "hnti_dump",
  BOX_DUMP_DEF GF_ISOM_BOX_TYPE_SDP "sdp_dump",
  BOX_DUMP_DEF GF_ISOM_BOX_TYPE_HINF "hinf_dump",
  BOX_DUMP_DEF GF_ISOM_BOX_TYPE_RELY "rely_dump",
  BOX_DUMP_DEF GF_ISOM_BOX_TYPE_TIMS "tims_dump",
  BOX_DUMP_DEF GF_ISOM_BOX_TYPE_TSRO "tsro_dump",
  BOX_DUMP_DEF GF_ISOM_BOX_TYPE_SNRO "snro_dump",
  BOX_DUMP_DEF GF_ISOM_BOX_TYPE_TRPY "trpy_dump",
  BOX_DUMP_DEF GF_ISOM_BOX_TYPE_NUMP "nump_dump",
  BOX_DUMP_DEF GF_ISOM_BOX_TYPE_TOTL "totl_dump",
  BOX_DUMP_DEF GF_ISOM_BOX_TYPE_NPCK "npck_dump",
  BOX_DUMP_DEF GF_ISOM_BOX_TYPE_TPYL "tpyl_dump",
  BOX_DUMP_DEF GF_ISOM_BOX_TYPE_TPAY "tpay_dump",
  BOX_DUMP_DEF GF_ISOM_BOX_TYPE_MAXR "maxr_dump",
  BOX_DUMP_DEF GF_ISOM_BOX_TYPE_DMED "dmed_dump",
  BOX_DUMP_DEF GF_ISOM_BOX_TYPE_DIMM "dimm_dump",
  BOX_DUMP_DEF GF_ISOM_BOX_TYPE_DREP "drep_dump",
  BOX_DUMP_DEF GF_ISOM_BOX_TYPE_TMIN "tmin_dump",
  BOX_DUMP_DEF GF_ISOM_BOX_TYPE_TMAX "tmax_dump",
  BOX_DUMP_DEF GF_ISOM_BOX_TYPE_PMAX "pmax_dump",
  BOX_DUMP_DEF GF_ISOM_BOX_TYPE_DMAX "dmax_dump",
  BOX_DUMP_DEF GF_ISOM_BOX_TYPE_PAYT "payt_dump",
  BOX_DUMP_DEF GF_ISOM_BOX_TYPE_NAME "name_dump",
  BOX_DUMP_DEF GF_ISOM_BOX_TYPE_FTYP "ftyp_dump",
  BOX_DUMP_DEF GF_ISOM_BOX_TYPE_STYP "ftyp_dump",
  BOX_DUMP_DEF GF_ISOM_BOX_TYPE_PADB "padb_dump",
  BOX_DUMP_DEF GF_ISOM_BOX_TYPE_MVEX "mvex_dump",
  FBOX_DUMP_DEF GF_ISOM_BOX_TYPE_MEHD "mehd_dump" 1,
  FBOX_DUMP_DEF GF_ISOM_BOX_TYPE_TREX "trex_dump" 0,
  FBOX_DUMP_DEF GF_ISOM_BOX_TYPE_TREP "trep_dump" 0,
  BOX_DUMP_DEF GF_ISOM_BOX_TYPE_MOOF "moof_dump",
  FBOX_DUMP_DEF GF_ISOM_BOX_TYPE_MFHD "mfhd_dump" 0,
  BOX_DUMP_DEF GF_ISOM_BOX_TYPE_TRAF "traf_dump",
  ⟨GF_ISOM_BOX_TYPE_TFHD, "tfhd_dump", 0, 0, 0x000001 ||| 0x000002 ||| 0x000008 ||| 0x000010 ||| 0x000020 ||| 0x010000 ||| 0x020000⟩,
  ⟨GF_ISOM_BOX_TYPE_TRUN, "trun_dump", 0, 0, 0x000001 ||| 0x000004 ||| 0x000100 ||| 0x000200 ||| 0x000400 ||| 0x000800⟩,
  FBOX_DUMP_DEF GF_ISOM_BOX_TYPE_TFDT "tfdt_dump" 1,
  FBOX_DUMP_DEF GF_ISOM_BOX_TYPE_SUBS "subs_dump" 1,
  BOX_DUMP_DEF GF_ISOM_BOX_TYPE_RVCC "rvcc_dump",
  BOX_DUMP_DEF GF_ISOM_BOX_TYPE_TRGR "trgr_dump",
  TRGT_DUMP_DEF GF_ISOM_BOX_TYPE_TRGT "trgt_dump" GF_4CC_msrc 0,
  BOX_DUMP_DEF GF_ISOM_BOX_TYPE_VOID "void_dump",
  BOX_DUMP_DEF GF_ISOM_BOX_TYPE_STSF "stsf_dump",
  BOX_DUMP_DEF GF_ISOM_SUBTYPE_3GP_AMR "gppa_dump",
  BOX_DUMP_DEF GF_ISOM_SUBTYPE_3GP_AMR_WB "gppa_dump",
  BOX_DUMP_DEF GF_ISOM_SUBTYPE_3GP_QCELP "gppa_dump",
  BOX_DUMP_DEF GF_ISOM_SUBTYPE_3GP_EVRC "gppa_dump",
  BOX_DUMP_DEF GF_ISOM_SUBTYPE_3GP_SMV "gppa_dump",
  BOX_DUMP_DEF GF_ISOM_SUBTYPE_3GP_H263 "gppv_dump",
  BOX_DUMP_DEF GF_ISOM_BOX_TYPE_DAMR "gppc_dump",
  BOX_DUMP_DEF GF_ISOM_BOX_TYPE_DEVC "gppc_dump",
  BOX_DUMP_DEF GF_ISOM_BOX_TYPE_DQCP "gppc_dump",
  BOX_DUMP_DEF GF_ISOM_BOX_TYPE_DSMV "gppc_dump",
  BOX_DUMP_DEF GF_ISOM_BOX_TYPE_D263 "gppc_dump",
  BOX_DUMP_DEF GF_ISOM_BOX_TYPE_AVCC "avcc_dump",
  BOX_DUMP_DEF GF_ISOM_BOX_TYPE_SVCC "avcc_dump",
  BOX_DUMP_DEF GF_ISOM_BOX_TYPE_HVCC "hvcc_dump",
  BOX_DUMP_DEF GF_ISOM_BOX_TYPE_LHVC "hvcc_dump",
  BOX_DUMP_DEF GF_ISOM_BOX_TYPE_BTRT "btrt_dump",
  BOX_DUMP_DEF GF_ISOM_BOX_TYPE_M4DS "m4ds_dump",
  BOX_DUMP_DEF GF_ISOM_BOX_TYPE_AVC1 "mp4v_dump",
  BOX_DUMP_DEF GF_ISOM_BOX_TYPE_AVC2 "mp4v_dump",
  BOX_DUMP_DEF GF_ISOM_BOX_TYPE_AVC3 "mp4v_dump",
  BOX_DUMP_DEF GF_ISOM_BOX_TYPE_AVC4 "mp4v_dump",
  BOX_DUMP_DEF GF_ISOM_BOX_TYPE_SVC1 "mp4v_dump",
  BOX_DUMP_DEF GF_ISOM_BOX_TYPE_HVC1 "mp4v_dump",
  BOX_DUMP_DEF GF_ISOM_BOX_TYPE_HEV1 "mp4v_dump",
  BOX_DUMP_DEF GF_ISOM_BOX_TYPE_HVC2 "mp4v_dump",
  BOX_DUMP_DEF GF_ISOM_BOX_TYPE_HEV2 "mp4v_dump",
  BOX_DUMP_DEF GF_ISOM_BOX_TYPE_LHV1 "mp4v_dump",
  BOX_DUMP_DEF GF_ISOM_BOX_TYPE_LHE1 "mp4v_dump",
  BOX_DUMP_DEF GF_ISOM_BOX_TYPE_HVT1 "mp4v_dump",
  BOX_DUMP_DEF GF_ISOM_BOX_TYPE_PASP "pasp_dump",
  BOX_DUMP_DEF GF_ISOM_BOX_TYPE_FTAB "ftab_dump",
  BOX_DUMP_DEF GF_ISOM_BOX_TYPE_TX3G "tx3g_dump",
  BOX_DUMP_DEF GF_ISOM_BOX_TYPE_TEXT "text_dump",
  BOX_DUMP_DEF GF_ISOM_BOX_TYPE_STYL "styl_dump",
  BOX_DUMP_DEF GF_ISOM_BOX_TYPE_HLIT "hlit_dump",
  BOX_DUMP_DEF GF_ISOM_BOX_TYPE_HCLR "hclr_dump",
  BOX_DUMP_DEF GF_ISOM_BOX_TYPE_KROK "krok_dump",
  BOX_DUMP_DEF GF_ISOM_BOX_TYPE_DLAY "dlay_dump",
  BOX_DUMP_DEF GF_ISOM_BOX_TYPE_HREF "href_dump",
  BOX_DUMP_DEF GF_ISOM_BOX_TYPE_TBOX "tbox_dump",
  BOX_DUMP_DEF GF_ISOM_BOX_TYPE_BLNK "blnk_dump",
  BOX_DUMP_DEF GF_ISOM_BOX_TYPE_TWRP "twrp_dump",
  BOX_DUMP_DEF GF_ISOM_BOX_TYPE_PSSH "pssh_dump",
  BOX_DUMP_DEF GF_ISOM_BOX_TYPE_TENC "tenc_dump",
  BOX_DUMP_DEF GF_ISOM_BOX_TYPE_IKMS "iKMS_dump",
  BOX_DUMP_DEF GF_ISOM_BOX_TYPE_ISFM "iSFM_dump",
  FBOX_DUMP_DEF GF_ISOM_BOX_TYPE_META "meta_dump" 0,
  FBOX_DUMP_DEF GF_ISOM_BOX_TYPE_XML "xml_dump" 0,
  BOX_DUMP_DEF GF_ISOM_BOX_TYPE_BXML "bxml_dump",
  FBOX_DUMP_DEF GF_ISOM_BOX_TYPE_ILOC "iloc_dump" 2,
  FBOX_DUMP_DEF GF_ISOM_BOX_TYPE_PITM "pitm_dump" 1,
  FBOX_DUMP_DEF GF_ISOM_BOX_TYPE_IPRO "ipro_dump" 0,
  FBOX_DUMP_DEF GF_ISOM_BOX_TYPE_INFE "infe_dump" 1,
  FBOX_DUMP_DEF GF_ISOM_BOX_TYPE_INFE "infe_dump" 2,
  FBOX_DUMP_DEF GF_ISOM_BOX_TYPE_IINF "iinf_dump" 1,
  FBOX_DUMP_DEF GF_ISOM_BOX_TYPE_IREF "iref_dump" 1,
  BOX_DUMP_DEF GF_ISOM_BOX_TYPE_SINF "sinf_dump",
  BOX_DUMP_DEF GF_ISOM_BOX_TYPE_FRMA "frma_dump",
  ⟨GF_ISOM_BOX_TYPE_SCHM, "schm_dump", 0, 0, 1⟩,
  BOX_DUMP_DEF GF_ISOM_BOX_TYPE_SCHI "schi_dump",
  BOX_DUMP_DEF GF_ISOM_BOX_TYPE_ENCA "mp4a_dump",
  BOX_DUMP_DEF GF_ISOM_BOX_TYPE_ENCV "mp4v_dump",
  BOX_DUMP_DEF GF_ISOM_BOX_TYPE_ENCS "mp4s_dump",
  FBOX_DUMP_DEF GF_ISOM_BOX_TYPE_PRFT "prft_dump" 1,
  BOX_DUMP_DEF GF_ISOM_BOX_TYPE_0xA9NAM "apple_tag_dump",
  BOX_DUMP_DEF GF_ISOM_BOX_TYPE_0xA9CMT "apple_tag_dump",
  BOX_DUMP_DEF GF_ISOM_BOX_TYPE_0xA9DAY "apple_tag_dump",
  BOX_DUMP_DEF GF_ISOM_BOX_TYPE_0xA9ART "apple_tag_dump",
  BOX_DUMP_DEF GF_ISOM_BOX_TYPE_0xA9TRK "apple_tag_dump",
  BOX_DUMP_DEF GF_ISOM_BOX_TYPE_0xA9ALB "apple_tag_dump",
  BOX_DUMP_DEF GF_ISOM_BOX_TYPE_0xA9COM "apple_tag_dump",
  BOX_DUMP_DEF GF_ISOM_BOX_TYPE_0xA9WRT "apple_tag_dump",
  BOX_DUMP_DEF GF_ISOM_BOX_TYPE_0xA9TOO "apple_tag_dump",
  BOX_DUMP_DEF GF_ISOM_BOX_TYPE_0xA9CPY "apple_tag_dump",
  BOX_DUMP_DEF GF_ISOM_BOX_TYPE_0xA9DES "apple_tag_dump",
  BOX_DUMP_DEF GF_ISOM_BOX_TYPE_0xA9GEN "apple_tag_dump",
  BOX_DUMP_DEF GF_ISOM_BOX_TYPE_0xA9GRP "apple_tag_dump",
  BOX_DUMP_DEF GF_ISOM_BOX_TYPE_GNRE "apple_tag_dump",
  BOX_DUMP_DEF GF_ISOM_BOX_TYPE_DISK "apple_tag_dump",
  BOX_DUMP_DEF GF_ISOM_BOX_TYPE_TRKN "apple_tag_dump",
  BOX_DUMP_DEF GF_ISOM_BOX_TYPE_TMPO "apple_tag_dump",
  BOX_DUMP_DEF GF_ISOM_BOX_TYPE_CPIL "apple_tag_dump",
  BOX_DUMP_DEF GF_ISOM_BOX_TYPE_COVR "apple_tag_dump",
  BOX_DUMP_DEF GF_ISOM_BOX_TYPE_iTunesSpecificInfo "apple_tag_dump",
  BOX_DUMP_DEF GF_ISOM_BOX_TYPE_ABST "abst_dump",
  BOX_DUMP_DEF GF_ISOM_BOX_TYPE_AFRA "afra_dump",
  BOX_DUMP_DEF GF_ISOM_BOX_TYPE_ASRT "asrt_dump",
  BOX_DUMP_DEF GF_ISOM_BOX_TYPE_AFRT "afrt_dump",
  BOX_DUMP_DEF GF_ISOM_BOX_TYPE_ILST "ilst_dump",
  BOX_DUMP_DEF GF_ISOM_BOX_TYPE_OHDR "ohdr_dump",
  BOX_DUMP_DEF GF_ISOM_BOX_TYPE_GRPI "grpi_dump",
  BOX_DUMP_DEF GF_ISOM_BOX_TYPE_MDRI "mdri_dump",
  BOX_DUMP_DEF GF_ISOM_BOX_TYPE_ODTT "odtt_dump",
  BOX_DUMP_DEF GF_ISOM_BOX_TYPE_ODRB "odrb_dump",
  BOX_DUMP_DEF GF_ISOM_BOX_TYPE_ODKM "odkm_dump",
  BOX_DUMP_DEF GF_ISOM_BOX_TYPE_ODAF "iSFM_dump",
  FBOX_DUMP_DEF GF_ISOM_BOX_TYPE_TSEL "tsel_dump" 0,
  BOX_DUMP_DEF GF_ISOM_BOX_TYPE_STRK "strk_dump",
  FBOX_DUMP_DEF GF_ISOM_BOX_TYPE_STRI "stri_dump" 0,
  BOX_DUMP_DEF GF_ISOM_BOX_TYPE_METX "metx_dump",
  BOX_DUMP_DEF GF_ISOM_BOX_TYPE_METT "metx_dump",
  BOX_DUMP_DEF GF_ISOM_BOX_TYPE_DIMS "dims_dump",
  BOX_DUMP_DEF GF_ISOM_BOX_TYPE_DIMC "dimC_dump",
  BOX_DUMP_DEF GF_ISOM_BOX_TYPE_DIST "diST_dump",
  BOX_DUMP_DEF GF_ISOM_BOX_TYPE_AC3 "ac3_dump",
  BOX_DUMP_DEF GF_ISOM_BOX_TYPE_DAC3 "dac3_dump",
  BOX_DUMP_DEF GF_ISOM_BOX_TYPE_LSR1 "lsr1_dump",
  BOX_DUMP_DEF GF_ISOM_BOX_TYPE_LSRC "lsrc_dump",
  FBOX_DUMP_DEF GF_ISOM_BOX_TYPE_SIDX "sidx_dump" 1,
  FBOX_DUMP_DEF GF_ISOM_BOX_TYPE_SSIX "ssix_dump" 0,
  FBOX_DUMP_DEF GF_ISOM_BOX_TYPE_LEVA "leva_dump" 0,
  BOX_DUMP_DEF GF_ISOM_BOX_TYPE_PCRB "pcrb_dump",
  BOX_DUMP_DEF GF_ISOM_BOX_TYPE_SENC "senc_dump",
  BOX_DUMP_DEF GF_ISOM_BOX_TYPE_UUID "uuid_ex_dump",
  BOX_DUMP_DEF GF_ISOM_BOX_TYPE_STXT "metx_dump",
  FBOX_DUMP_DEF GF_ISOM_BOX_TYPE_TXTC "txtc_dump" 0,
  BOX_DUMP_DEF GF_ISOM_BOX_TYPE_VTTC "boxstring_dump",
  BOX_DUMP_DEF GF_ISOM_BOX_TYPE_CTIM "boxstring_dump",
  BOX_DUMP_DEF GF_ISOM_BOX_TYPE_IDEN "boxstring_dump",
  BOX_DUMP_DEF GF_ISOM_BOX_TYPE_STTG "boxstring_dump",
  BOX_DUMP_DEF GF_ISOM_BOX_TYPE_PAYL "boxstring_dump",
  BOX_DUMP_DEF GF_ISOM_BOX_TYPE_VTTA "boxstring_dump",
  BOX_DUMP_DEF GF_ISOM_BOX_TYPE_VTCU "vtcu_dump",
  BOX_DUMP_DEF GF_ISOM_BOX_TYPE_VTTE "vtte_dump",
  BOX_DUMP_DEF GF_ISOM_BOX_TYPE_WVTT "wvtt_dump",
  BOX_DUMP_DEF GF_ISOM_BOX_TYPE_STPP "metx_dump",
  BOX_DUMP_DEF GF_ISOM_BOX_TYPE_SBTT "metx_dump",
  BOX_DUMP_DEF GF_ISOM_BOX_TYPE_ADKM "adkm_dump",
  BOX_DUMP_DEF GF_ISOM_BOX_TYPE_AHDR "ahdr_dump",
  BOX_DUMP_DEF GF_ISOM_BOX_TYPE_ADAF "adaf_dump",
  BOX_DUMP_DEF GF_ISOM_BOX_TYPE_APRM "aprm_dump",
  BOX_DUMP_DEF GF_ISOM_BOX_TYPE_AEIB "aeib_dump",
  BOX_DUMP_DEF GF_ISOM_BOX_TYPE_AKEY "akey_dump",
  BOX_DUMP_DEF GF_ISOM_BOX_TYPE_FLXS "flxs_dump",
  BOX_DUMP_DEF GF_ISOM_BOX_TYPE_ISPE "ispe_dump",
  BOX_DUMP_DEF GF_ISOM_BOX_TYPE_COLR "colr_dump",
  BOX_DUMP_DEF GF_ISOM_BOX_TYPE_PIXI "pixi_dump",
  BOX_DUMP_DEF GF_ISOM_BOX_TYPE_RLOC "rloc_dump",
  BOX_DUMP_DEF GF_ISOM_BOX_TYPE_IROT "irot_dump",
  BOX_DUMP_DEF GF_ISOM_BOX_TYPE_IPCO "ipco_dump",
  BOX_DUMP_DEF GF_ISOM_BOX_TYPE_IPRP "iprp_dump",
  BOX_DUMP_DEF GF_ISOM_BOX_TYPE_IPMA "ipma_dump",
  BOX_DUMP_DEF GF_ISOM_BOX_TYPE_GRPL "grpl_dump"
]

/-- Number of rows of the registry (gf_isom_get_num_supported_boxes). -/
def gf_isom_get_num_supported_boxes : Nat := defined_box_types.length

/-- Index of the first row of a list whose box_4cc column equals t, as scanned by the
for loop of gf_box_dump_ex (i = 0 upward, comparing only box_4cc). -/
def findFirstIdx (t : Nat) : List BoxDef → Option Nat
  | [] => none
  | d :: rest => if d.box_4cc = t then some 0 else (findFirstIdx t rest).map (· + 1)

/-- First position of a code in a plain list of codes. -/
def firstIdxOf (t : Nat) : List Nat → Option Nat
  | [] => none
  | c :: rest => if c = t then some 0 else (firstIdxOf t rest).map (· + 1)

/-- Production dispatch, gf_box_dump_ex.  A null box prints NullBoxErr (naming the
expected type when box_4cc is nonzero) and returns GF_OK.  Otherwise the table is
scanned in declaration order and the first row whose box_4cc equals the box type has
its renderer invoked; the renderer's own return value is forwarded in the source and
ignored by every caller modelled here, so the invoke event stands for that call.  When
no row matches, an error is written to the GF_LOG channel (the second component) and
GF_ISOM_INVALID_FILE is returned.  The box argument is the box's type code, none for a
null pointer.  Result: (trace events, log entries, return code). -/
def gf_box_dump_ex (box : Option Nat) (box_4cc : Nat) : List Out × List Nat × GF_Err :=
  match box with
  | none =>
    (if box_4cc ≠ 0 then [Out.nullBoxExpected box_4cc] else [Out.nullBoxGeneric],
     [], GF_Err.GF_OK)
  | some t =>
    match defined_box_types.find? (fun d => d.box_4cc == t) with
    | some d => ([Out.invoke d.dump_fn t], [], GF_Err.GF_OK)
    | none => ([], [t], GF_Err.GF_ISOM_INVALID_FILE)

/-- gf_box_dump(ptr, trace) is gf_box_dump_ex with expected type 0. -/
def gf_box_dump (box : Option Nat) : List Out × List Nat × GF_Err :=
  gf_box_dump_ex box 0

/-- gf_box_array_dump: dumps every box of the list in order, discarding each return
value, and returns GF_OK.  The boxes handed out by gf_list_enum are non-null, so the
list carries plain type codes. -/
def gf_box_array_dump : List Nat → List Out × List Nat × GF_Err
  | [] => ([], [], GF_Err.GF_OK)
  | t :: rest =>
    let r := gf_box_dump (some t)
    let rs := gf_box_array_dump rest
    (r.1 ++ rs.1, r.2.1 ++ rs.2.1, GF_Err.GF_OK)

/-- gf_box_dump_done(name, ptr, trace): dumps ptr's other_boxes list when ptr and the
list are non-null (the other argument is none when either is null), then prints the
closing tag when name is non-null. -/
def gf_box_dump_done (name : Option String) (other : Option (List Nat)) :
    List Out × List Nat :=
  let r := match other with
    | some l => let a := gf_box_array_dump l; (a.1, a.2.1)
    | none => ([], [])
  (r.1 ++ (match name with | some n => [Out.closeElem n] | none => []), r.2)

/-- Membership in the switch of legal top-level box types in gf_isom_dump, with the
fragment and adobe sections compiled in as in a default build. -/
def topBoxAllowed (t : Nat) : Bool :=
  t == GF_ISOM_BOX_TYPE_FTYP || t == GF_ISOM_BOX_TYPE_MOOV || t == GF_ISOM_BOX_TYPE_MDAT ||
  t == GF_ISOM_BOX_TYPE_FREE || t == GF_ISOM_BOX_TYPE_META || t == GF_ISOM_BOX_TYPE_SKIP ||
  t == GF_ISOM_BOX_TYPE_MOOF || t == GF_ISOM_BOX_TYPE_STYP || t == GF_ISOM_BOX_TYPE_SIDX ||
  t == GF_ISOM_BOX_TYPE_SSIX || t == GF_ISOM_BOX_TYPE_PCRB || t == GF_ISOM_BOX_TYPE_AFRA ||
  t == GF_ISOM_BOX_TYPE_ABST || t == GF_ISOM_BOX_TYPE_MFRA || t == GF_ISOM_BOX_TYPE_PRFT ||
  t == GF_ISOM_BOX_TYPE_UUID

/-- Body of the while loop of gf_isom_dump over mov's TopBoxes: for each box, the
default branch of the switch prints BadTopBoxErr, then the box is dumped regardless,
its return value discarded. -/
def dumpTopBoxes : List Nat → List Out × List Nat
  | [] => ([], [])
  | t :: rest =>
    let r := gf_box_dump (some t)
    let rs := dumpTopBoxes rest
    ((if topBoxAllowed t then [] else [Out.badTopBox t]) ++ r.1 ++ rs.1, r.2.1 ++ rs.2)

/-- gf_isom_dump(mov, trace): none models a null mov or a null trace FILE, both of
which return GF_BAD_PARAM before any output.  Otherwise the XML header and the root
wrapper are printed, every top-level box is checked against the allow-list and dumped,
and the call returns GF_OK. -/
def gf_isom_dump (mov : Option (List Nat)) : List Out × List Nat × GF_Err :=
  match mov with
  | none => ([], [], GF_Err.GF_BAD_PARAM)
  | some boxes =>
    let r := dumpTopBoxes boxes
    ([Out.xmlDecl, Out.docComment, Out.openElem "IsoMediaFile" []] ++ r.1 ++
       [Out.closeElem "IsoMediaFile"],
     r.2, GF_Err.GF_OK)

/-- gf_isom_get_supported_box_type(idx) reads defined_box_types[idx].box_4cc with no
bounds check; an out-of-range access is undefined in C and modelled as none. -/
def gf_isom_get_supported_box_type (idx : Nat) : Option Nat :=
  (defined_box_types.get? idx).map BoxDef.box_4cc

/-- Fields of the freshly allocated box that gf_isom_dump_supported_box populates:
the structural type, the per-family internal discriminator fields, and the full-box
version and flags.  gf_isom_box_new (outside src/) zero-initializes them all and the
box size. -/
structure SynthBox where
  type : Nat
  size : Nat
  reference_type : Nat
  group_type : Nat
  grouping_type : Nat
  version : Nat
  flags : Nat
deriving DecidableEq

/-- Modelled from the spec: gf_isom_box_new (the box constructor, outside src/)
returns a fresh node of the given type with zero size and all internal fields zero,
as the synthesizer of section 4.6 requires. -/
def gf_isom_box_new (t : Nat) : SynthBox :=
  ⟨t, 0, 0, 0, 0, 0, 0⟩

/-- The field stores performed by gf_isom_dump_supported_box on the fresh box before
dumping it: when the row's alt_4cc is nonzero it is stored into the internal field
selected by the box type (reference_type for REFT and REFI, group_type for TRGT,
grouping_type for SGPD); a nonzero max_version and nonzero flags are stored into the
full-box fields. -/
def synthSetup (d : BoxDef) : SynthBox :=
  let a := gf_isom_box_new d.box_4cc
  let a := if d.alt_4cc ≠ 0 then
      (if a.type = GF_ISOM_BOX_TYPE_REFT then { a with reference_type := d.alt_4cc }
       else if a.type = GF_ISOM_BOX_TYPE_REFI then { a with reference_type := d.alt_4cc }
       else if a.type = GF_ISOM_BOX_TYPE_TRGT then { a with group_type := d.alt_4cc }
       else if a.type = GF_ISOM_BOX_TYPE_SGPD then { a with grouping_type := d.alt_4cc }
       else a)
    else a
  let a := if d.max_version ≠ 0 then { a with version := d.max_version } else a
  if d.flags ≠ 0 then { a with flags := d.flags } else a

/-- gf_isom_dump_supported_box(idx, trace): reads defined_box_types[idx] with no
bounds check (none for the undefined out-of-range access), builds the synthetic box
and dumps it through the production dispatcher. -/
def gf_isom_dump_supported_box (idx : Nat) :
    Option (SynthBox × (List Out × List Nat × GF_Err)) :=
  (defined_box_types.get? idx).map (fun d =>
    let a := synthSetup d
    (a, gf_box_dump (some a.type)))

/-- Attributes printed by DumpBox: the size (LargeSize past 32 bits), then for a UUID
box the 16 uuid bytes (opaque here: no modelled renderer reaches that branch) and
otherwise the Type attribute through gf_4cc_to_str. -/
def DumpBoxAttrs (boxType size : Nat) : List (String × AttrVal) :=
  (if size > 4294967295 then [("LargeSize", AttrVal.num size)]
   else [("Size", AttrVal.num size)]) ++
  (if boxType = GF_ISOM_BOX_TYPE_UUID then [("UUID", AttrVal.str "uuid-bytes")]
   else [("Type", AttrVal.fourCC boxType)])

/-- Version and Flags attributes printed by gf_full_box_dump. -/
def gf_full_box_dump (version flags : Nat) : List (String × AttrVal) :=
  [("Version", AttrVal.num version), ("Flags", AttrVal.num flags)]

/-- Modelled from the spec: gf_4cc_to_str (outside src/) renders a type code as text;
represented here by the code's decimal numeral, which is injective on codes, since no
claim depends on the concrete characters. -/
def gf_4cc_to_str (c : Nat) : String := toString c

/-- GF_TrackReferenceTypeBox: the fields reftype_dump reads and writes.  The
trackIDCount counter and the trackIDs array are modelled as one list. -/
structure GF_TrackReferenceTypeBox where
  type : Nat
  size : Nat
  reference_type : Nat
  trackIDs : List Nat
  other_boxes : Option (List Nat)
deriving DecidableEq

/-- reftype_dump: returns GF_OK at once when reference_type is zero (nothing printed,
box untouched); otherwise overwrites the box type with reference_type, prints the box,
and puts the REFT constant back before returning.  Result: (final box state, trace,
log, return code). -/
def reftype_dump (p : GF_TrackReferenceTypeBox) :
    GF_TrackReferenceTypeBox × List Out × List Nat × GF_Err :=
  if p.reference_type = 0 then (p, [], [], GF_Err.GF_OK)
  else
    let p1 := { p with type := p.reference_type }
    let d := gf_box_dump_done (some "TrackReferenceTypeBox") p1.other_boxes
    let p2 := { p1 with type := GF_ISOM_BOX_TYPE_REFT }
    (p2,
     Out.openElem "TrackReferenceTypeBox"
       (DumpBoxAttrs p1.type p1.size ++ [("Tracks", AttrVal.nums p1.trackIDs)]) :: d.1,
     d.2, GF_Err.GF_OK)

/-- GF_ItemReferenceTypeBox: the fields ireftype_dump reads and writes. -/
structure GF_ItemReferenceTypeBox where
  type : Nat
  size : Nat
  reference_type : Nat
  from_item_id : Nat
  to_item_IDs : List Nat
  other_boxes : Option (List Nat)
deriving DecidableEq

/-- ireftype_dump: early GF_OK when reference_type is zero; otherwise substitutes the
type, builds the element name from the substituted type's text, prints, and puts the
REFI constant back. -/
def ireftype_dump (p : GF_ItemReferenceTypeBox) :
    GF_ItemReferenceTypeBox × List Out × List Nat × GF_Err :=
  if p.reference_type = 0 then (p, [], [], GF_Err.GF_OK)
  else
    let p1 := { p with type := p.reference_type }
    let s := if p1.type ≠ 0 then gf_4cc_to_str p1.type else ""
    let boxname := s ++ "ItemReferenceBox"
    let d := gf_box_dump_done (some boxname) p1.other_boxes
    let p2 := { p1 with type := GF_ISOM_BOX_TYPE_REFI }
    (p2,
     Out.openElem boxname
       (DumpBoxAttrs p1.type p1.size ++
        [("from_item_id", AttrVal.num p1.from_item_id),
         ("to_item_ids", AttrVal.nums p1.to_item_IDs)]) :: d.1,
     d.2, GF_Err.GF_OK)

/-- GF_TrackGroupTypeBox: the fields trgt_dump reads and writes. -/
structure GF_TrackGroupTypeBox where
  type : Nat
  size : Nat
  version : Nat
  flags : Nat
  group_type : Nat
  track_group_id : Nat
  other_boxes : Option (List Nat)
deriving DecidableEq

/-- trgt_dump: unconditionally overwrites the box type with group_type for DumpBox,
puts the TRGT constant back immediately after, then prints version, flags and
track_group_id.  There is no early return: a zero group_type is printed like any
other code. -/
def trgt_dump (p : GF_TrackGroupTypeBox) :
    GF_TrackGroupTypeBox × List Out × List Nat × GF_Err :=
  let p1 := { p with type := p.group_type }
  let openAttrs := DumpBoxAttrs p1.type p1.size
  let p2 := { p1 with type := GF_ISOM_BOX_TYPE_TRGT }
  let d := gf_box_dump_done (some "TrackGroupTypeBox") p2.other_boxes
  (p2,
   Out.openElem "TrackGroupTypeBox"
     (openAttrs ++ gf_full_box_dump p2.version p2.flags ++
      [("track_group_id", AttrVal.num p2.track_group_id)]) :: d.1,
   d.2, GF_Err.GF_OK)

/-- One row of the stts table. -/
structure SttsEntry where
  sampleDelta : Nat
  sampleCount : Nat
deriving DecidableEq

/-- GF_TimeToSampleBox: the nb_entries counter and the entries array are modelled as
one list. -/
structure GF_TimeToSampleBox where
  type : Nat
  size : Nat
  version : Nat
  flags : Nat
  entries : List SttsEntry
  other_boxes : Option (List Nat)
deriving DecidableEq

/-- stts_dump: one TimeToSampleEntry element per table row; with nonzero size a
comment counting the samples (a 32-bit accumulator in the source), with zero size one
placeholder TimeToSampleEntry with empty values. -/
def stts_dump (p : GF_TimeToSampleBox) : List Out × List Nat × GF_Err :=
  let rows := p.entries.map (fun e =>
    Out.subElem "TimeToSampleEntry"
      [("SampleDelta", AttrVal.num e.sampleDelta), ("SampleCount", AttrVal.num e.sampleCount)])
  let nb_samples := (p.entries.foldl (fun acc e => acc + e.sampleCount) 0) % 4294967296
  let tl := if p.size ≠ 0 then [Out.comment "counted samples in STTS entries" nb_samples]
    else [Out.subElem "TimeToSampleEntry" [("SampleDelta", AttrVal.empty), ("SampleCount", AttrVal.empty)]]
  let d := gf_box_dump_done (some "TimeToSampleBox") p.other_boxes
  (Out.openElem "TimeToSampleBox"
      (DumpBoxAttrs p.type p.size ++ gf_full_box_dump p.version p.flags ++
       [("EntryCount", AttrVal.num p.entries.length)]) :: rows ++ tl ++ d.1,
   d.2, GF_Err.GF_OK)

/-- GF_ChunkOffsetBox: offsets is none for a null offsets pointer; nb_entries is the
separate counter field the loop trusts. -/
structure GF_ChunkOffsetBox where
  type : Nat
  size : Nat
  version : Nat
  flags : Nat
  nb_entries : Nat
  offsets : Option (List Nat)
  other_boxes : Option (List Nat)
deriving DecidableEq

/-- stco_dump: a warning comment when the offsets pointer is null on a real box,
otherwise one ChunkEntry per counted entry (reading offsets[i] beyond the array is
undefined in C; modelled as 0, and unreachable when the counter matches the array);
with zero size one placeholder ChunkEntry with an empty value. -/
def stco_dump (p : GF_ChunkOffsetBox) : List Out × List Nat × GF_Err :=
  let mid := if p.offsets.isNone ∧ p.size ≠ 0 then [Out.warn "No Chunk Offsets indications"]
    else (List.range p.nb_entries).map (fun i =>
      Out.subElem "ChunkEntry" [("offset", AttrVal.num ((p.offsets.getD []).getD i 0))])
  let ph := if p.size = 0 then [Out.subElem "ChunkEntry" [("offset", AttrVal.empty)]] else []
  let d := gf_box_dump_done (some "ChunkOffsetBox") p.other_boxes
  (Out.openElem "ChunkOffsetBox"
      (DumpBoxAttrs p.type p.size ++ gf_full_box_dump p.version p.flags ++
       [("EntryCount", AttrVal.num p.nb_entries)]) :: mid ++ ph ++ d.1,
   d.2, GF_Err.GF_OK)

/-- One row of the sbgp table. -/
structure SbgpEntry where
  sample_count : Nat
  group_description_index : Nat
deriving DecidableEq

/-- GF_SampleGroupBox: the entry_count counter and the sample_entries array are
modelled as one list. -/
structure GF_SampleGroupBox where
  type : Nat
  size : Nat
  version : Nat
  flags : Nat
  grouping_type : Nat
  grouping_type_parameter : Nat
  entries : List SbgpEntry
  other_boxes : Option (List Nat)
deriving DecidableEq

/-- isalnum of the C library on a byte value, for the standard locale. -/
def isalnumByte (c : Nat) : Bool :=
  (Nat.ble 48 c && Nat.ble c 57) || (Nat.ble 65 c && Nat.ble c 90) ||
  (Nat.ble 97 c && Nat.ble c 122)

/-- sbgp_dump: grouping_type_parameter is printed only for version 1, as a 4cc when
its low byte is alphanumeric and as a number otherwise; one SampleGroupBoxEntry per
table row, and with zero size one placeholder SampleGroupBoxEntry with empty values. -/
def sbgp_dump (p : GF_SampleGroupBox) : List Out × List Nat × GF_Err :=
  let gtp := if p.version = 1 then
      [("grouping_type_parameter",
        if isalnumByte (p.grouping_type_parameter % 256) then AttrVal.fourCC p.grouping_type_parameter
        else AttrVal.num p.grouping_type_parameter)]
    else []
  let rows := p.entries.map (fun e =>
    Out.subElem "SampleGroupBoxEntry"
      [("sample_count", AttrVal.num e.sample_count),
       ("group_description_index", AttrVal.num e.group_description_index)])
  let ph := if p.size = 0 then
      [Out.subElem "SampleGroupBoxEntry"
        [("sample_count", AttrVal.empty), ("group_description_index", AttrVal.empty)]]
    else []
  let d := gf_box_dump_done (some "SampleGroupBox") p.other_boxes
  (Out.openElem "SampleGroupBox"
      (DumpBoxAttrs p.type p.size ++ gf_full_box_dump p.version p.flags ++
       [("grouping_type", AttrVal.fourCC p.grouping_type)] ++ gtp) :: rows ++ ph ++ d.1,
   d.2, GF_Err.GF_OK)

/-- Pattern if (ptr) gf_box_dump(ptr, trace): dump a child box when its pointer is
non-null. -/
def optDump (b : Option Nat) : List Out × List Nat :=
  match b with
  | some t => let r := gf_box_dump (some t); (r.1, r.2.1)
  | none => ([], [])

/-- Pattern if (list) loop of gf_box_dump over each member (gf_box_array_dump and the
sai_sizes / sai_offsets loops print the same events). -/
def optArrayDump (l : Option (List Nat)) : List Out × List Nat :=
  match l with
  | some xs => let r := gf_box_array_dump xs; (r.1, r.2.1)
  | none => ([], [])

/-- Pattern if (p->size) gf_box_dump_ex(child, trace, EXPECTED): a named slot guarded
by the recorded size of the parent. -/
def sizedSlot (size : Nat) (child : Option Nat) (expected : Nat) : List Out × List Nat :=
  if size ≠ 0 then let r := gf_box_dump_ex child expected; (r.1, r.2.1) else ([], [])

/-- GF_SampleTableBox: each named child slot as the type code of the child when
present. -/
structure GF_SampleTableBox where
  type : Nat
  size : Nat
  SampleDescription : Option Nat
  TimeToSample : Option Nat
  CompositionOffset : Option Nat
  CompositionToDecode : Option Nat
  SyncSample : Option Nat
  ShadowSync : Option Nat
  SampleToChunk : Option Nat
  SampleSize : Option Nat
  ChunkOffset : Option Nat
  DegradationPriority : Option Nat
  SampleDep : Option Nat
  PaddingBits : Option Nat
  Fragments : Option Nat
  sub_samples : Option (List Nat)
  sampleGroupsDescription : Option (List Nat)
  sampleGroups : Option (List Nat)
  sai_sizes : Option (List Nat)
  sai_offsets : Option (List Nat)
  other_boxes : Option (List Nat)
deriving DecidableEq

/-- stbl_dump: the mandatory slots (stsd, stts, stsc, stsz, stco) are dumped through
gf_box_dump_ex with their expected type only when the recorded size is nonzero; the
optional slots and lists are dumped when present; the overflow list and the closing
tag come last through gf_box_dump_done. -/
def stbl_dump (p : GF_SampleTableBox) : List Out × List Nat × GF_Err :=
  let s1 := sizedSlot p.size p.SampleDescription GF_ISOM_BOX_TYPE_STSD
  let s2 := sizedSlot p.size p.TimeToSample GF_ISOM_BOX_TYPE_STTS
  let o1 := optDump p.CompositionOffset
  let o2 := optDump p.CompositionToDecode
  let o3 := optDump p.SyncSample
  let o4 := optDump p.ShadowSync
  let s3 := sizedSlot p.size p.SampleToChunk GF_ISOM_BOX_TYPE_STSC
  let s4 := sizedSlot p.size p.SampleSize GF_ISOM_BOX_TYPE_STSZ
  let s5 := sizedSlot p.size p.ChunkOffset GF_ISOM_BOX_TYPE_STCO
  let o5 := optDump p.DegradationPriority
  let o6 := optDump p.SampleDep
  let o7 := optDump p.PaddingBits
  let o8 := optDump p.Fragments
  let a1 := optArrayDump p.sub_samples
  let a2 := optArrayDump p.sampleGroupsDescription
  let a3 := optArrayDump p.sampleGroups
  let a4 := optArrayDump p.sai_sizes
  let a5 := optArrayDump p.sai_offsets
  let d := gf_box_dump_done (some "SampleTableBox") p.other_boxes
  (Out.openElem "SampleTableBox" (DumpBoxAttrs p.type p.size) ::
     (s1.1 ++ s2.1 ++ o1.1 ++ o2.1 ++ o3.1 ++ o4.1 ++ s3.1 ++ s4.1 ++ s5.1 ++
      o5.1 ++ o6.1 ++ o7.1 ++ o8.1 ++ a1.1 ++ a2.1 ++ a3.1 ++ a4.1 ++ a5.1 ++ d.1),
   s1.2 ++ s2.2 ++ o1.2 ++ o2.2 ++ o3.2 ++ o4.2 ++ s3.2 ++ s4.2 ++ s5.2 ++
     o5.2 ++ o6.2 ++ o7.2 ++ o8.2 ++ a1.2 ++ a2.2 ++ a3.2 ++ a4.2 ++ a5.2 ++ d.2,
   GF_Err.GF_OK)

/-- GF_DataInformationBox: the dref named slot. -/
structure GF_DataInformationBox where
  type : Nat
  size : Nat
  dref : Option Nat
  other_boxes : Option (List Nat)
deriving DecidableEq

/-- dinf_dump: the dref slot is dumped with expected type DREF only when the recorded
size is nonzero, then the overflow list and closing tag. -/
def dinf_dump (p : GF_DataInformationBox) : List Out × List Nat × GF_Err :=
  let s := sizedSlot p.size p.dref GF_ISOM_BOX_TYPE_DREF
  let d := gf_box_dump_done (some "DataInformationBox") p.other_boxes
  (Out.openElem "DataInformationBox" (DumpBoxAttrs p.type p.size) :: (s.1 ++ d.1),
   s.2 ++ d.2, GF_Err.GF_OK)

/-- Modelled from the spec: the bitstream reader gf_bs (outside src/) over a byte
blob.  Fields are read MSB-first; the reader never accesses a byte beyond the blob,
and a bit requested past the end is returned as zero (the cursor still advances). -/
structure BS where
  data : List Nat
  pos : Nat
deriving DecidableEq

/-- Read one bit MSB-first; zero past the end of the blob. -/
def bsReadBit (b : BS) : Nat × BS :=
  (((b.data.getD (b.pos / 8) 0) >>> (7 - b.pos % 8)) % 2, ⟨b.data, b.pos + 1⟩)

/-- gf_bs_read_int: an n-bit big-endian field. -/
def bsReadInt : Nat → BS → Nat × BS
  | 0, b => (0, b)
  | n + 1, b =>
    let bit := (bsReadBit b).1
    let b1 := (bsReadBit b).2
    ((bsReadInt n b1).1 + bit <<< n, (bsReadInt n b1).2)

/-- Dependency rows of trif_dump: count u16 tile ids. -/
def trifDeps : Nat → BS → List Out
  | 0, _ => []
  | n + 1, b =>
    Out.subElem "TileRegionDependency" [("tileID", AttrVal.num (bsReadInt 16 b).1)] ::
      trifDeps n (bsReadInt 16 b).2

/-- trif_dump: with a null blob, the fixed schema placeholder; otherwise a bit-exact
decode of the tile-region layout.  With tile_group zero the source prints the opening
attributes and never terminates the tag (unclosedElem).  No length check is made and
no diagnostic of any kind is ever printed. -/
def trif_dump (data : Option (List Nat)) : List Out :=
  match data with
  | none =>
    [Out.openElem "TileRegionGroupEntry"
       [("ID", AttrVal.empty), ("tileGroup", AttrVal.empty), ("independent", AttrVal.empty),
        ("full_picture", AttrVal.empty), ("filter_disabled", AttrVal.empty),
        ("x", AttrVal.empty), ("y", AttrVal.empty), ("w", AttrVal.empty), ("h", AttrVal.empty)],
     Out.subElem "TileRegionDependency" [("tileID", AttrVal.empty)],
     Out.closeElem "TileRegionGroupEntry"]
  | some d =>
    let b0 : BS := ⟨d, 0⟩
    let id := (bsReadInt 16 b0).1
    let b1 := (bsReadInt 16 b0).2
    let tile_group := (bsReadInt 1 b1).1
    let b2 := (bsReadInt 1 b1).2
    if tile_group ≠ 0 then
      let independent := (bsReadInt 2 b2).1
      let b3 := (bsReadInt 2 b2).2
      let full_picture := (bsReadInt 1 b3).1
      let b4 := (bsReadInt 1 b3).2
      let filter_disabled := (bsReadInt 1 b4).1
      let b5 := (bsReadInt 1 b4).2
      let has_dep := (bsReadInt 1 b5).1
      let b6 := (bsReadInt 1 b5).2
      let b7 := (bsReadInt 2 b6).2
      let xy := if full_picture = 0 then
          [("x", AttrVal.num (bsReadInt 16 b7).1),
           ("y", AttrVal.num (bsReadInt 16 (bsReadInt 16 b7).2).1)]
        else []
      let b8 := if full_picture = 0 then (bsReadInt 16 (bsReadInt 16 b7).2).2 else b7
      let w := (bsReadInt 16 b8).1
      let b9 := (bsReadInt 16 b8).2
      let h := (bsReadInt 16 b9).1
      let b10 := (bsReadInt 16 b9).2
      let attrs := [("ID", AttrVal.num id), ("tileGroup", AttrVal.num tile_group),
        ("independent", AttrVal.num independent), ("full_picture", AttrVal.num full_picture),
        ("filter_disabled", AttrVal.num filter_disabled)] ++ xy ++
        [("w", AttrVal.num w), ("h", AttrVal.num h)]
      if has_dep = 0 then [Out.subElem "TileRegionGroupEntry" attrs]
      else
        Out.openElem "TileRegionGroupEntry" attrs ::
          (trifDeps (bsReadInt 16 b10).1 (bsReadInt 16 b10).2 ++
           [Out.closeElem "TileRegionGroupEntry"])
    else
      [Out.unclosedElem "TileRegionGroupEntry"
        [("ID", AttrVal.num id), ("tileGroup", AttrVal.num tile_group)]]

/-- Entry rows of nalm_dump: the start number is present only in rle mode, with a
width set by large_size. -/
def nalmEntries (rle large_size : Nat) : Nat → BS → List Out
  | 0, _ => []
  | n + 1, b =>
    let w := if large_size ≠ 0 then 16 else 8
    let sn := if rle ≠ 0 then [("NALU_startNumber", AttrVal.num (bsReadInt w b).1)] else []
    let b1 := if rle ≠ 0 then (bsReadInt w b).2 else b
    Out.subElem "NALUMapEntry" (sn ++ [("groupID", AttrVal.num (bsReadInt 16 b1).1)]) ::
      nalmEntries rle large_size n (bsReadInt 16 b1).2

/-- nalm_dump: with a null blob, the fixed schema placeholder; otherwise 6 reserved
bits, the large_size and rle flags, an entry count of 8 or 16 bits, and the entries.
No length check is made and no diagnostic of any kind is ever printed. -/
def nalm_dump (data : Option (List Nat)) : List Out :=
  match data with
  | none =>
    [Out.openElem "NALUMap" [("rle", AttrVal.empty), ("large_size", AttrVal.empty)],
     Out.subElem "NALUMapEntry" [("NALU_startNumber", AttrVal.empty), ("groupID", AttrVal.empty)],
     Out.closeElem "NALUMap"]
  | some d =>
    let b0 : BS := ⟨d, 0⟩
    let b1 := (bsReadInt 6 b0).2
    let large_size := (bsReadInt 1 b1).1
    let b2 := (bsReadInt 1 b1).2
    let rle := (bsReadInt 1 b2).1
    let b3 := (bsReadInt 1 b2).2
    let entry_count := (bsReadInt (if large_size ≠ 0 then 16 else 8) b3).1
    let b4 := (bsReadInt (if large_size ≠ 0 then 16 else 8) b3).2
    Out.openElem "NALUMap" [("rle", AttrVal.num rle), ("large_size", AttrVal.num large_size)] ::
      (nalmEntries rle large_size entry_count b4 ++ [Out.closeElem "NALUMap"])

/-- True for a renderer-invocation event of the dispatcher. -/
def Out.isInvoke : Out → Bool
  | .invoke _ _ => true
  | _ => false

/-- True for the BadTopBoxErr comment. -/
def Out.isBadTop : Out → Bool
  | .badTopBox _ => true
  | _ => false

/-- True for either branch of the NullBoxErr comment. -/
def Out.isNullBoxDiag : Out → Bool
  | .nullBoxExpected _ => true
  | .nullBoxGeneric => true
  | _ => false

/-- The self-closed sub-elements of a given name in a trace, in order. -/
def elemsNamed (nm : String) (l : List Out) : List Out :=
  l.filter (fun o => match o with | .subElem n _ => n == nm | _ => false)

/-! Helper lemmas about the generic scanning and folding functions. -/

theorem findFirstIdx_eq_firstIdxOf (t : Nat) :
    ∀ l : List BoxDef, findFirstIdx t l = firstIdxOf t (l.map BoxDef.box_4cc) := by
  intro l
  induction l with
  | nil => rfl
  | cons d rest ih => simp [findFirstIdx, firstIdxOf, ih]

theorem findFirstIdx_none (t : Nat) :
    ∀ l : List BoxDef, findFirstIdx t l = none → ∀ e ∈ l, e.box_4cc ≠ t := by
  intro l
  induction l with
  | nil => intro _ e he; cases he
  | cons d rest ih =>
    intro h e he
    by_cases hd : d.box_4cc = t
    · simp [findFirstIdx, hd] at h
    · simp only [findFirstIdx, if_neg hd, Option.map_eq_none'] at h
      rcases List.mem_cons.mp he with he' | he'
      · subst he'; exact hd
      · exact ih h e he'

theorem find?_none_of_findFirstIdx_none (t : Nat) :
    ∀ l : List BoxDef, findFirstIdx t l = none →
      l.find? (fun x => x.box_4cc == t) = none := by
  intro l h
  rw [List.find?_eq_none]
  intro e he
  simpa using findFirstIdx_none t l h e he

theorem findFirstIdx_some (t : Nat) :
    ∀ l : List BoxDef, ∀ i, findFirstIdx t l = some i →
      ∃ d, l.get? i = some d ∧ d.box_4cc = t ∧
        (∀ j, j < i → ∀ e, l.get? j = some e → e.box_4cc ≠ t) ∧
        l.find? (fun x => x.box_4cc == t) = some d := by
  intro l
  induction l with
  | nil => intro i h; cases h
  | cons d rest ih =>
    intro i h
    by_cases hd : d.box_4cc = t
    · simp [findFirstIdx, hd] at h
      subst h
      exact ⟨d, rfl, hd, by intro j hj; omega,
        List.find?_cons_of_pos _ (by simpa using hd)⟩
    · simp [findFirstIdx, hd] at h
      rcases h with ⟨i0, h0, hi⟩
      rcases ih i0 h0 with ⟨e, hget, het, hmin, hfind⟩
      subst hi
      refine ⟨e, by simpa using hget, het, ?_,
        by rw [List.find?_cons_of_neg _ (by simpa using hd)]; exact hfind⟩
      intro j hj f hget'
      cases j with
      | zero =>
        intro hc
        have hfd : d = f := by simpa using hget'
        exact hd (by rw [hfd]; exact hc)
      | succ j0 => exact hmin j0 (by omega) f (by simpa using hget')

theorem gf_box_array_dump_err (l : List Nat) :
    (gf_box_array_dump l).2.2 = GF_Err.GF_OK := by
  cases l <;> simp [gf_box_array_dump]

theorem gf_box_array_dump_append (l1 l2 : List Nat) :
    gf_box_array_dump (l1 ++ l2) =
      ((gf_box_array_dump l1).1 ++ (gf_box_array_dump l2).1,
       (gf_box_array_dump l1).2.1 ++ (gf_box_array_dump l2).2.1,
       GF_Err.GF_OK) := by
  induction l1 with
  | nil =>
    cases hq : gf_box_array_dump l2 with
    | mk a b =>
      cases b with
      | mk b1 b2 =>
        have h2 := gf_box_array_dump_err l2
        rw [hq] at h2
        simp at h2
        simp [gf_box_array_dump, hq, h2]
  | cons x xs ih => simp [gf_box_array_dump, ih]

theorem dumpTopBoxes_append (l1 l2 : List Nat) :
    (dumpTopBoxes (l1 ++ l2)).1 = (dumpTopBoxes l1).1 ++ (dumpTopBoxes l2).1 ∧
    (dumpTopBoxes (l1 ++ l2)).2 = (dumpTopBoxes l1).2 ++ (dumpTopBoxes l2).2 := by
  induction l1 with
  | nil => simp [dumpTopBoxes]
  | cons x xs ih => simp [dumpTopBoxes, ih.1, ih.2]

theorem gf_box_dump_trace_cases (t : Nat) :
    (∃ d, defined_box_types.find? (fun x => x.box_4cc == t) = some d ∧
       gf_box_dump (some t) = ([Out.invoke d.dump_fn t], [], GF_Err.GF_OK)) ∨
    (defined_box_types.find? (fun x => x.box_4cc == t) = none ∧
       gf_box_dump (some t) = ([], [t], GF_Err.GF_ISOM_INVALID_FILE)) := by
  cases h : defined_box_types.find? (fun x => x.box_4cc == t) with
  | none => exact Or.inr ⟨rfl, by simp [gf_box_dump, gf_box_dump_ex, h]⟩
  | some d => exact Or.inl ⟨d, rfl, by simp [gf_box_dump, gf_box_dump_ex, h]⟩

theorem gf_box_dump_invoke_log_count (t : Nat) :
    ((gf_box_dump (some t)).1.countP Out.isInvoke) + (gf_box_dump (some t)).2.1.length = 1 := by
  rcases gf_box_dump_trace_cases t with ⟨d, _, h⟩ | ⟨_, h⟩ <;> simp [h, Out.isInvoke]

theorem gf_box_dump_no_badTop (t : Nat) :
    (gf_box_dump (some t)).1.countP Out.isBadTop = 0 := by
  rcases gf_box_dump_trace_cases t with ⟨d, _, h⟩ | ⟨_, h⟩ <;> simp [h, Out.isBadTop]

theorem gf_box_dump_no_nullBox (t : Nat) :
    (gf_box_dump (some t)).1.countP Out.isNullBoxDiag = 0 := by
  rcases gf_box_dump_trace_cases t with ⟨d, _, h⟩ | ⟨_, h⟩ <;> simp [h, Out.isNullBoxDiag]

/-! Claim theorems. -/

/-- C1: production dispatch scans defined_box_types in declaration order and invokes
the renderer of the first row whose primary type code equals the box's type, the scan
comparing nothing but the box_4cc column (alt_4cc, max_version and flags never enter);
hence when one type code owns several rows, the renderer reached through production
dispatch is always that of the least-index row, and the other rows are unreachable
through gf_box_dump_ex. -/
theorem c1_dispatch_first_declared_entry_wins (t expected : Nat) :
    (findFirstIdx t defined_box_types = firstIdxOf t (defined_box_types.map BoxDef.box_4cc)) ∧
    (∀ i, findFirstIdx t defined_box_types = some i →
      ∃ d, defined_box_types.get? i = some d ∧ d.box_4cc = t ∧
        (∀ j, j < i → ∀ e, defined_box_types.get? j = some e → e.box_4cc ≠ t) ∧
        gf_box_dump_ex (some t) expected = ([Out.invoke d.dump_fn t], [], GF_Err.GF_OK)) ∧
    (findFirstIdx t defined_box_types = none →
      gf_box_dump_ex (some t) expected = ([], [t], GF_Err.GF_ISOM_INVALID_FILE)) := by
  refine ⟨findFirstIdx_eq_firstIdxOf t defined_box_types, ?_, ?_⟩
  · intro i h
    rcases findFirstIdx_some t defined_box_types i h with ⟨d, hget, het, hmin, hfind⟩
    exact ⟨d, hget, het, hmin, by simp [gf_box_dump_ex, hfind]⟩
  · intro h
    simp [gf_box_dump_ex, find?_none_of_findFirstIdx_none t defined_box_types h]

/-- Witness for C1 at the REFT type code: its first row is index 1 (reftype_dump with
the OD reference kind), the seventeen REFT rows behind it are unreachable. -/
theorem c1_witness :
    ∃ d, defined_box_types.get? 1 = some d ∧ d.box_4cc = GF_ISOM_BOX_TYPE_REFT ∧
      (∀ j, j < 1 → ∀ e, defined_box_types.get? j = some e → e.box_4cc ≠ GF_ISOM_BOX_TYPE_REFT) ∧
      gf_box_dump_ex (some GF_ISOM_BOX_TYPE_REFT) 0 =
        ([Out.invoke "reftype_dump" GF_ISOM_BOX_TYPE_REFT], [], GF_Err.GF_OK) := by
  rcases (c1_dispatch_first_declared_entry_wins GF_ISOM_BOX_TYPE_REFT 0).2.1 1 (by decide)
    with ⟨d, hget, het, hmin, hdump⟩
  have hd : d = ⟨GF_ISOM_BOX_TYPE_REFT, "reftype_dump", GF_ISOM_REF_OD, 0, 0⟩ := by
    have := hget
    rw [show defined_box_types.get? 1 =
      some ⟨GF_ISOM_BOX_TYPE_REFT, "reftype_dump", GF_ISOM_REF_OD, 0, 0⟩ from by decide] at this
    exact (Option.some.inj this).symm
  exact ⟨d, hget, het, hmin, by rw [hdump, hd]⟩

/-- C4: a box whose type matches no registry row produces a GF_LOG diagnostic naming
the type, returns the non-fatal GF_ISOM_INVALID_FILE with nothing written to the
trace, and neither gf_box_array_dump nor the top-level loop of gf_isom_dump stops
there: the boxes after it are still dumped and both drivers return GF_OK. -/
theorem c4_unknown_type_nonfatal (t : Nat)
    (h : ∀ e ∈ defined_box_types, e.box_4cc ≠ t) :
    gf_box_dump_ex (some t) 0 = ([], [t], GF_Err.GF_ISOM_INVALID_FILE) ∧
    (∀ l1 l2 : List Nat,
      gf_box_array_dump (l1 ++ t :: l2) =
        ((gf_box_array_dump l1).1 ++ (gf_box_array_dump l2).1,
         (gf_box_array_dump l1).2.1 ++ t :: (gf_box_array_dump l2).2.1,
         GF_Err.GF_OK)) ∧
    (∀ l1 l2 : List Nat,
      (dumpTopBoxes (l1 ++ t :: l2)).1 =
        (dumpTopBoxes l1).1 ++ (if topBoxAllowed t then [] else [Out.badTopBox t]) ++
          (dumpTopBoxes l2).1 ∧
      (gf_isom_dump (some (l1 ++ t :: l2))).2.2 = GF_Err.GF_OK) := by
  have hfind : defined_box_types.find? (fun x => x.box_4cc == t) = none := by
    rw [List.find?_eq_none]; intro e he; simpa using h e he
  have hdump : gf_box_dump_ex (some t) 0 = ([], [t], GF_Err.GF_ISOM_INVALID_FILE) := by
    simp [gf_box_dump_ex, hfind]
  refine ⟨hdump, ?_, ?_⟩
  · intro l1 l2
    rw [gf_box_array_dump_append]
    rw [show (t :: l2 : List Nat) = [t] ++ l2 from rfl, gf_box_array_dump_append]
    simp [gf_box_array_dump, gf_box_dump, hdump]
  · intro l1 l2
    constructor
    · rw [(dumpTopBoxes_append l1 (t :: l2)).1]
      rw [show (t :: l2 : List Nat) = [t] ++ l2 from rfl, (dumpTopBoxes_append [t] l2).1]
      simp [dumpTopBoxes, gf_box_dump, hdump]
    · simp [gf_isom_dump]

set_option maxRecDepth 4000 in
/-- Witness for C4 at an unused type code and a two-element sibling list. -/
theorem c4_witness :
    gf_box_dump_ex (some 999999) 0 = ([], [999999], GF_Err.GF_ISOM_INVALID_FILE) ∧
    gf_box_array_dump ([GF_ISOM_BOX_TYPE_MOOV] ++ 999999 :: [GF_ISOM_BOX_TYPE_FREE]) =
      ((gf_box_array_dump [GF_ISOM_BOX_TYPE_MOOV]).1 ++ (gf_box_array_dump [GF_ISOM_BOX_TYPE_FREE]).1,
       (gf_box_array_dump [GF_ISOM_BOX_TYPE_MOOV]).2.1 ++ 999999 :: (gf_box_array_dump [GF_ISOM_BOX_TYPE_FREE]).2.1,
       GF_Err.GF_OK) := by
  have h := c4_unknown_type_nonfatal 999999 (by decide)
  exact ⟨h.1, h.2.1 [GF_ISOM_BOX_TYPE_MOOV] [GF_ISOM_BOX_TYPE_FREE]⟩

/-- C9: a null box is not an error: gf_box_dump_ex prints the NullBoxErr comment
naming the expected type when a nonzero expected code is supplied and the generic
null-box comment otherwise, invokes no renderer, logs nothing, and returns GF_OK. -/
theorem c9_null_box_not_error (c : Nat) :
    (c ≠ 0 → gf_box_dump_ex none c = ([Out.nullBoxExpected c], [], GF_Err.GF_OK)) ∧
    (c = 0 → gf_box_dump_ex none c = ([Out.nullBoxGeneric], [], GF_Err.GF_OK)) ∧
    (gf_box_dump_ex none c).1.countP Out.isInvoke = 0 ∧
    (gf_box_dump_ex none c).2.2 = GF_Err.GF_OK := by
  refine ⟨fun h => by simp [gf_box_dump_ex, h], fun h => by simp [gf_box_dump_ex, h], ?_, ?_⟩
  · by_cases h : c = 0 <;> simp [gf_box_dump_ex, h, Out.isInvoke]
  · by_cases h : c = 0 <;> simp [gf_box_dump_ex, h]

/-- Witness for C9 at expected codes 0 and stsd. -/
theorem c9_witness :
    gf_box_dump_ex none GF_ISOM_BOX_TYPE_STSD =
      ([Out.nullBoxExpected GF_ISOM_BOX_TYPE_STSD], [], GF_Err.GF_OK) ∧
    gf_box_dump_ex none 0 = ([Out.nullBoxGeneric], [], GF_Err.GF_OK) :=
  ⟨(c9_null_box_not_error GF_ISOM_BOX_TYPE_STSD).1 (by decide),
   (c9_null_box_not_error 0).2.1 rfl⟩

/-- C10: neither enumeration entry point checks its index: under the precondition
idx below gf_isom_get_num_supported_boxes every table access is in bounds, and at or
past the count the unchecked access is out of bounds (undefined in C, none here), so
the precondition is necessary. -/
theorem c10_enumeration_bounds (idx : Nat) :
    (idx < gf_isom_get_num_supported_boxes →
      (gf_isom_get_supported_box_type idx).isSome ∧ (gf_isom_dump_supported_box idx).isSome) ∧
    (gf_isom_get_num_supported_boxes ≤ idx →
      gf_isom_get_supported_box_type idx = none ∧ gf_isom_dump_supported_box idx = none) := by
  constructor
  · intro h
    have hs : (defined_box_types.get? idx).isSome := by
      rw [List.get?_eq_get h]; rfl
    rcases Option.isSome_iff_exists.mp hs with ⟨d, hd⟩
    have hd' : defined_box_types[idx]? = some d := by
      rw [← List.get?_eq_getElem?]; exact hd
    exact ⟨by simp [gf_isom_get_supported_box_type, hd'],
           by simp [gf_isom_dump_supported_box, hd']⟩
  · intro h
    have h' : defined_box_types.length ≤ idx := h
    have hnone : defined_box_types[idx]? = none := by
      rw [← List.get?_eq_getElem?]; exact List.get?_eq_none.mpr h'
    exact ⟨by simp [gf_isom_get_supported_box_type, hnone],
           by simp [gf_isom_dump_supported_box, hnone]⟩

set_option maxRecDepth 4000 in
/-- Witness for C10 at the first index and at the count itself. -/
theorem c10_witness :
    (gf_isom_get_supported_box_type 0).isSome = true ∧
    gf_isom_get_supported_box_type 275 = none :=
  ⟨((c10_enumeration_bounds 0).1 (by decide)).1,
   ((c10_enumeration_bounds 275).2 (by decide)).1⟩

/-- C8: the top-level driver on a non-null movie always returns GF_OK; it emits a
BadTopBoxErr diagnostic for exactly the boxes whose type is outside the allow-list
(the diagnostic is advisory), and every top-level box is still handed to the
dispatcher: each contributes exactly one renderer invocation or one unregistered-type
log entry, so the dump of the remaining boxes always proceeds. -/
theorem c8_top_level_allow_list (bs : List Nat) :
    (gf_isom_dump (some bs)).2.2 = GF_Err.GF_OK ∧
    (gf_isom_dump (some bs)).1.countP Out.isBadTop = bs.countP (fun t => !topBoxAllowed t) ∧
    (gf_isom_dump (some bs)).1.countP Out.isInvoke + (gf_isom_dump (some bs)).2.1.length =
      bs.length := by
  have main : ∀ l : List Nat,
      (dumpTopBoxes l).1.countP Out.isBadTop = l.countP (fun t => !topBoxAllowed t) ∧
      (dumpTopBoxes l).1.countP Out.isInvoke + (dumpTopBoxes l).2.length = l.length := by
    intro l
    induction l with
    | nil => simp [dumpTopBoxes]
    | cons t rest ih =>
      constructor
      · have hb := gf_box_dump_no_badTop t
        by_cases ha : topBoxAllowed t <;>
          simp [dumpTopBoxes, List.countP_cons, List.countP_append, ih.1, hb, ha, Out.isBadTop]
      · have hi := gf_box_dump_invoke_log_count t
        by_cases ha : topBoxAllowed t <;>
          simp [dumpTopBoxes, List.countP_cons, List.countP_append, ha, Out.isInvoke] <;> omega
  refine ⟨by simp [gf_isom_dump], ?_, ?_⟩
  · simpa [gf_isom_dump, List.countP_cons, List.countP_append, Out.isBadTop] using (main bs).1
  · simpa [gf_isom_dump, List.countP_cons, List.countP_append, Out.isInvoke] using (main bs).2

/-- C2: every identity-substituting renderer leaves the node's type code unchanged
across the call when the node reaches it with its registered structural type (the only
way production dispatch or synthesis hands it a node): reftype_dump and ireftype_dump
restore the REFT and REFI constants after substituting, and on the early-return path
with a zero internal discriminator they touch nothing and render nothing; trgt_dump
restores the TRGT constant right after printing the substituted identity. -/
theorem c2_identity_substitution_restores_type :
    (∀ p : GF_TrackReferenceTypeBox, p.type = GF_ISOM_BOX_TYPE_REFT →
      (reftype_dump p).1.type = p.type ∧
      (p.reference_type = 0 → (reftype_dump p).1 = p ∧ (reftype_dump p).2.1 = [])) ∧
    (∀ p : GF_ItemReferenceTypeBox, p.type = GF_ISOM_BOX_TYPE_REFI →
      (ireftype_dump p).1.type = p.type ∧
      (p.reference_type = 0 → (ireftype_dump p).1 = p ∧ (ireftype_dump p).2.1 = [])) ∧
    (∀ p : GF_TrackGroupTypeBox, p.type = GF_ISOM_BOX_TYPE_TRGT →
      (trgt_dump p).1.type = p.type) := by
  refine ⟨?_, ?_, ?_⟩
  · intro p hp
    refine ⟨?_, fun h => by simp [reftype_dump, h]⟩
    by_cases h : p.reference_type = 0 <;> simp [reftype_dump, h, hp]
  · intro p hp
    refine ⟨?_, fun h => by simp [ireftype_dump, h]⟩
    by_cases h : p.reference_type = 0 <;> simp [ireftype_dump, h, hp]
  · intro p hp
    simp [trgt_dump, hp]

/-- Witness for C2: a populated track reference, an empty one, an item reference and a
track group, all with their registered structural types. -/
theorem c2_witness :
    (reftype_dump ⟨GF_ISOM_BOX_TYPE_REFT, 16, GF_ISOM_REF_OD, [1, 2], none⟩).1.type =
      GF_ISOM_BOX_TYPE_REFT ∧
    (reftype_dump ⟨GF_ISOM_BOX_TYPE_REFT, 16, 0, [], none⟩).2.1 = [] ∧
    (ireftype_dump ⟨GF_ISOM_BOX_TYPE_REFI, 20, GF_4CC_iloc, 1, [2], none⟩).1.type =
      GF_ISOM_BOX_TYPE_REFI ∧
    (trgt_dump ⟨GF_ISOM_BOX_TYPE_TRGT, 20, 0, 0, GF_4CC_msrc, 7, none⟩).1.type =
      GF_ISOM_BOX_TYPE_TRGT :=
  ⟨(c2_identity_substitution_restores_type.1 _ rfl).1,
   ((c2_identity_substitution_restores_type.1 _ rfl).2 rfl).2,
   (c2_identity_substitution_restores_type.2.1 _ rfl).1,
   c2_identity_substitution_restores_type.2.2 _ rfl⟩

set_option maxRecDepth 8000 in
/-- C3 fails on the code at the track-group registry row: TRGT_DUMP_DEF discards its
__4cc argument, so the row declared with the msrc code compiles with alt_4cc zero (no
TRGT row carries a discriminator), gf_isom_dump_supported_box therefore never reaches
its group_type store (that branch is dead), the synthesized box keeps group_type zero,
and the rendered output shows the zero code instead of the declared discriminator.
The last conjunct shows that the store branch would capture the discriminator had the
macro kept its argument, evidencing the slip. -/
theorem c3_trgt_discriminator_dropped :
    TRGT_DUMP_DEF GF_ISOM_BOX_TYPE_TRGT "trgt_dump" GF_4CC_msrc 0 =
      ⟨GF_ISOM_BOX_TYPE_TRGT, "trgt_dump", 0, 0, 0⟩ ∧
    GF_4CC_msrc ≠ 0 ∧
    defined_box_types.get? 129 = some ⟨GF_ISOM_BOX_TYPE_TRGT, "trgt_dump", 0, 0, 0⟩ ∧
    defined_box_types.all
      (fun d => (d.box_4cc != GF_ISOM_BOX_TYPE_TRGT) || (d.alt_4cc == 0)) = true ∧
    (gf_isom_dump_supported_box 129).map (fun x => x.1) =
      some ⟨GF_ISOM_BOX_TYPE_TRGT, 0, 0, 0, 0, 0, 0⟩ ∧
    (trgt_dump ⟨GF_ISOM_BOX_TYPE_TRGT, 0, 0, 0, 0, 0, none⟩).2.1 =
      [Out.openElem "TrackGroupTypeBox"
         [("Size", AttrVal.num 0), ("Type", AttrVal.fourCC 0), ("Version", AttrVal.num 0),
          ("Flags", AttrVal.num 0), ("track_group_id", AttrVal.num 0)],
       Out.closeElem "TrackGroupTypeBox"] ∧
    (synthSetup ⟨GF_ISOM_BOX_TYPE_TRGT, "trgt_dump", GF_4CC_msrc, 0, 0⟩).group_type =
      GF_4CC_msrc :=
  ⟨rfl, by decide, by decide, by decide, by decide, by decide, by decide⟩

theorem bsReadBit_past_end (b : BS) (h : 8 * b.data.length ≤ b.pos) :
    (bsReadBit b).1 = 0 := by
  have hlen : b.data.length ≤ b.pos / 8 :=
    (Nat.le_div_iff_mul_le (by norm_num)).mpr (by omega)
  have hz : b.data[b.pos / 8]? = none := by
    rw [← List.get?_eq_getElem?]; exact List.get?_eq_none.mpr hlen
  simp [bsReadBit, hz]

theorem bsReadInt_pos (n : Nat) : ∀ b : BS,
    (bsReadInt n b).2.data = b.data ∧ (bsReadInt n b).2.pos = b.pos + n := by
  induction n with
  | zero => intro b; exact ⟨rfl, rfl⟩
  | succ m ih =>
    intro b
    have h1 := ih ⟨b.data, b.pos + 1⟩
    refine ⟨?_, ?_⟩
    · show (bsReadInt m ⟨b.data, b.pos + 1⟩).2.data = b.data
      exact h1.1
    · show (bsReadInt m ⟨b.data, b.pos + 1⟩).2.pos = b.pos + (m + 1)
      rw [h1.2]
      show b.pos + 1 + m = b.pos + (m + 1)
      omega

theorem bsReadInt_past_end (n : Nat) : ∀ b : BS,
    8 * b.data.length ≤ b.pos → (bsReadInt n b).1 = 0 := by
  induction n with
  | zero => intro b _; rfl
  | succ m ih =>
    intro b h
    have hb : (bsReadBit b).1 = 0 := bsReadBit_past_end b h
    have hr : (bsReadInt m ⟨b.data, b.pos + 1⟩).1 = 0 := by
      refine ih _ ?_
      show 8 * b.data.length ≤ b.pos + 1
      omega
    show (bsReadInt m ⟨b.data, b.pos + 1⟩).1 + (bsReadBit b).1 <<< m = 0
    rw [hr, hb]
    simp [Nat.zero_shiftLeft]

theorem trifDeps_all_elem (n : Nat) : ∀ b : BS, (trifDeps n b).all Out.isElem = true := by
  induction n with
  | zero => intro b; rfl
  | succ m ih =>
    intro b
    show (Out.subElem _ _ :: trifDeps m _).all Out.isElem = true
    rw [List.all_cons]
    simp [Out.isElem, ih]

theorem nalmEntries_all_elem (rle large_size n : Nat) : ∀ b : BS,
    (nalmEntries rle large_size n b).all Out.isElem = true := by
  induction n with
  | zero => intro b; rfl
  | succ m ih =>
    intro b
    show (Out.subElem _ _ :: nalmEntries rle large_size m _).all Out.isElem = true
    rw [List.all_cons]
    simp [Out.isElem, ih]

theorem trif_dump_data_all_elem (d : List Nat) :
    (trif_dump (some d)).all Out.isElem = true := by
  simp only [trif_dump]
  split_ifs <;> simp [Out.isElem, trifDeps_all_elem, List.all_append]

theorem nalm_dump_data_all_elem (d : List Nat) :
    (nalm_dump (some d)).all Out.isElem = true := by
  show (Out.openElem _ _ :: (nalmEntries _ _ _ _ ++ [Out.closeElem _])).all Out.isElem = true
  rw [List.all_cons, List.all_append]
  simp [Out.isElem, nalmEntries_all_elem]

/-- C5 as stated is false at a one-byte NALU-map blob: the minimal layout of nalm_dump
is two bytes (the flag byte and an 8-bit entry count), and on the one-byte blob the
decoder emits exactly the same diagnostic-free output as on the exact two-byte blob —
the missing count is read as zero past the end and nothing marks the truncation. -/
theorem c5_counterexample :
    nalm_dump (some [0]) =
      [Out.openElem "NALUMap" [("rle", AttrVal.num 0), ("large_size", AttrVal.num 0)],
       Out.closeElem "NALUMap"] ∧
    (nalm_dump (some [0])).all Out.isElem = true ∧
    nalm_dump (some [0, 0]) =
      [Out.openElem "NALUMap" [("rle", AttrVal.num 0), ("large_size", AttrVal.num 0)],
       Out.closeElem "NALUMap"] ∧
    (nalm_dump (some [0, 0])).all Out.isElem = true :=
  ⟨by decide, by decide, by decide, by decide⟩

/-- C5 amended: on an exact-minimal-length blob the decoders emit no diagnostic, and
on a blob one byte shorter they also emit no diagnostic: every event either decoder
ever writes is an element, for every blob; the bitstream layer satisfies reads past
the end of the blob with zero bits (so missing trailing fields decode as zero) and
never touches bytes beyond the blob, so the truncation is silent. -/
theorem c5_amended_no_diagnostic_silent_zero_fill :
    (∀ data : List Nat, (trif_dump (some data)).all Out.isElem = true) ∧
    (∀ data : List Nat, (nalm_dump (some data)).all Out.isElem = true) ∧
    (∀ n : Nat, ∀ b : BS, 8 * b.data.length ≤ b.pos → (bsReadInt n b).1 = 0) ∧
    (∀ n : Nat, ∀ b : BS, (bsReadInt n b).2.data = b.data) :=
  ⟨trif_dump_data_all_elem, nalm_dump_data_all_elem, bsReadInt_past_end,
   fun n b => (bsReadInt_pos n b).1⟩

/-- Witness for C5 amended: concrete short blobs for both decoders and a fully
exhausted bitstream read. -/
theorem c5_witness :
    (nalm_dump (some [2])).all Out.isElem = true ∧
    (trif_dump (some [0, 1, 128])).all Out.isElem = true ∧
    (bsReadInt 16 ⟨[7], 8⟩).1 = 0 :=
  ⟨c5_amended_no_diagnostic_silent_zero_fill.2.1 [2],
   c5_amended_no_diagnostic_silent_zero_fill.1 [0, 1, 128],
   c5_amended_no_diagnostic_silent_zero_fill.2.2.1 16 ⟨[7], 8⟩ (by decide)⟩

theorem elemsNamed_append (nm : String) (a b : List Out) :
    elemsNamed nm (a ++ b) = elemsNamed nm a ++ elemsNamed nm b := by
  simp [elemsNamed, List.filter_append]

theorem elemsNamed_cons (nm : String) (o : Out) (l : List Out) :
    elemsNamed nm (o :: l) =
      (if (match o with | .subElem n _ => n == nm | _ => false) = true
       then o :: elemsNamed nm l else elemsNamed nm l) := by
  simp [elemsNamed, List.filter_cons]

theorem gf_box_dump_trace_all_invoke (t : Nat) :
    (gf_box_dump (some t)).1.all Out.isInvoke = true := by
  rcases gf_box_dump_trace_cases t with ⟨d, _, h⟩ | ⟨_, h⟩ <;> simp [h, Out.isInvoke]

theorem gf_box_array_dump_all_invoke (ts : List Nat) :
    (gf_box_array_dump ts).1.all Out.isInvoke = true := by
  induction ts with
  | nil => rfl
  | cons t rest ih =>
    have h1 := gf_box_dump_trace_all_invoke t
    simp only [gf_box_array_dump, List.all_append]
    simp [h1, ih]

theorem elemsNamed_of_all_invoke (nm : String) (l : List Out)
    (h : l.all Out.isInvoke = true) : elemsNamed nm l = [] := by
  apply List.filter_eq_nil.mpr
  intro a ha
  have := List.all_eq_true.mp h a ha
  cases a <;> simp_all [Out.isInvoke]

theorem elemsNamed_done (nm nm' : String) (other : Option (List Nat)) :
    elemsNamed nm (gf_box_dump_done (some nm') other).1 = [] := by
  cases other with
  | none => simp [gf_box_dump_done, elemsNamed, List.filter]
  | some l =>
    simp only [gf_box_dump_done]
    rw [elemsNamed_append]
    rw [elemsNamed_of_all_invoke nm _ (gf_box_array_dump_all_invoke l)]
    simp [elemsNamed, List.filter]

theorem elemsNamed_stts_rows (l : List SttsEntry) :
    elemsNamed "TimeToSampleEntry" (l.map (fun e =>
      Out.subElem "TimeToSampleEntry"
        [("SampleDelta", AttrVal.num e.sampleDelta), ("SampleCount", AttrVal.num e.sampleCount)])) =
    l.map (fun e => Out.subElem "TimeToSampleEntry"
        [("SampleDelta", AttrVal.num e.sampleDelta), ("SampleCount", AttrVal.num e.sampleCount)]) := by
  apply List.filter_eq_self.mpr
  intro a ha
  rcases List.mem_map.mp ha with ⟨e, _, rfl⟩
  simp

theorem elemsNamed_sbgp_rows (l : List SbgpEntry) :
    elemsNamed "SampleGroupBoxEntry" (l.map (fun e =>
      Out.subElem "SampleGroupBoxEntry"
        [("sample_count", AttrVal.num e.sample_count),
         ("group_description_index", AttrVal.num e.group_description_index)])) =
    l.map (fun e => Out.subElem "SampleGroupBoxEntry"
        [("sample_count", AttrVal.num e.sample_count),
         ("group_description_index", AttrVal.num e.group_description_index)]) := by
  apply List.filter_eq_self.mpr
  intro a ha
  rcases List.mem_map.mp ha with ⟨e, _, rfl⟩
  simp

theorem elemsNamed_stco_rows (l : List Out)
    (h : ∀ o ∈ l, ∃ a, o = Out.subElem "ChunkEntry" a) :
    elemsNamed "ChunkEntry" l = l := by
  apply List.filter_eq_self.mpr
  intro a ha
  rcases h a ha with ⟨attrs, rfl⟩
  simp

theorem range_map_getD {α β : Type} (g : α → β) (d0 : α) :
    ∀ l : List α, (List.range l.length).map (fun i => g (l.getD i d0)) = l.map g := by
  intro l
  induction l with
  | nil => rfl
  | cons x xs ih =>
    rw [List.length_cons, List.range_succ_eq_map]
    simp only [List.map_cons, List.map_map]
    congr 1

theorem elemsNamed_nil (nm : String) : elemsNamed nm [] = [] := rfl

theorem elemsNamed_cons_openElem (nm n : String) (a : List (String × AttrVal)) (l : List Out) :
    elemsNamed nm (Out.openElem n a :: l) = elemsNamed nm l := by
  simp [elemsNamed, List.filter_cons]

theorem elemsNamed_cons_closeElem (nm n : String) (l : List Out) :
    elemsNamed nm (Out.closeElem n :: l) = elemsNamed nm l := by
  simp [elemsNamed, List.filter_cons]

theorem elemsNamed_cons_comment (nm s : String) (k : Nat) (l : List Out) :
    elemsNamed nm (Out.comment s k :: l) = elemsNamed nm l := by
  simp [elemsNamed, List.filter_cons]

theorem elemsNamed_cons_warn (nm s : String) (l : List Out) :
    elemsNamed nm (Out.warn s :: l) = elemsNamed nm l := by
  simp [elemsNamed, List.filter_cons]

theorem elemsNamed_cons_subElem (nm n : String) (a : List (String × AttrVal)) (l : List Out) :
    elemsNamed nm (Out.subElem n a :: l) =
      (if n == nm then Out.subElem n a :: elemsNamed nm l else elemsNamed nm l) := by
  by_cases h : n == nm <;> simp [elemsNamed, List.filter_cons, h]

theorem stco_range_rows (l : List Nat) :
    (List.range l.length).map (fun i =>
      Out.subElem "ChunkEntry" [("offset", AttrVal.num (l[i]?.getD 0))]) =
    l.map (fun off => Out.subElem "ChunkEntry" [("offset", AttrVal.num off)]) := by
  have := range_map_getD (fun off => Out.subElem "ChunkEntry" [("offset", AttrVal.num off)]) 0 l
  simpa [List.getD] using this

theorem elemsNamed_stco_map (l : List Nat) :
    elemsNamed "ChunkEntry"
      (l.map (fun off => Out.subElem "ChunkEntry" [("offset", AttrVal.num off)])) =
    l.map (fun off => Out.subElem "ChunkEntry" [("offset", AttrVal.num off)]) := by
  apply List.filter_eq_self.mpr
  intro a ha
  rcases List.mem_map.mp ha with ⟨e, _, rfl⟩
  simp

/-- C6: placeholder parity for the table renderers.  With nonzero size, stts_dump,
stco_dump (offsets present and as counted) and sbgp_dump emit exactly one sub-element
per real table entry; with zero size (a synthetic schema probe, whose table is empty
by construction) each emits exactly one placeholder sub-element carrying the same
element name and attribute names with empty values — never zero and never the
real-entry form. -/
theorem c6_placeholder_parity :
    (∀ p : GF_TimeToSampleBox, p.size ≠ 0 →
      elemsNamed "TimeToSampleEntry" (stts_dump p).1 =
        p.entries.map (fun e => Out.subElem "TimeToSampleEntry"
          [("SampleDelta", AttrVal.num e.sampleDelta), ("SampleCount", AttrVal.num e.sampleCount)])) ∧
    (∀ p : GF_TimeToSampleBox, p.size = 0 → p.entries = [] →
      elemsNamed "TimeToSampleEntry" (stts_dump p).1 =
        [Out.subElem "TimeToSampleEntry"
          [("SampleDelta", AttrVal.empty), ("SampleCount", AttrVal.empty)]]) ∧
    (∀ p : GF_ChunkOffsetBox, ∀ l : List Nat, p.size ≠ 0 → p.offsets = some l →
      l.length = p.nb_entries →
      elemsNamed "ChunkEntry" (stco_dump p).1 =
        l.map (fun off => Out.subElem "ChunkEntry" [("offset", AttrVal.num off)])) ∧
    (∀ p : GF_ChunkOffsetBox, p.size = 0 → p.nb_entries = 0 →
      elemsNamed "ChunkEntry" (stco_dump p).1 =
        [Out.subElem "ChunkEntry" [("offset", AttrVal.empty)]]) ∧
    (∀ p : GF_SampleGroupBox, p.size ≠ 0 →
      elemsNamed "SampleGroupBoxEntry" (sbgp_dump p).1 =
        p.entries.map (fun e => Out.subElem "SampleGroupBoxEntry"
          [("sample_count", AttrVal.num e.sample_count),
           ("group_description_index", AttrVal.num e.group_description_index)])) ∧
    (∀ p : GF_SampleGroupBox, p.size = 0 → p.entries = [] →
      elemsNamed "SampleGroupBoxEntry" (sbgp_dump p).1 =
        [Out.subElem "SampleGroupBoxEntry"
          [("sample_count", AttrVal.empty), ("group_description_index", AttrVal.empty)]]) := by
  refine ⟨?_, ?_, ?_, ?_, ?_, ?_⟩
  · intro p hsz
    simp [stts_dump, hsz, elemsNamed_cons_openElem, elemsNamed_append,
      elemsNamed_cons_comment, elemsNamed_nil, elemsNamed_done, elemsNamed_stts_rows]
  · intro p hsz hent
    simp [stts_dump, hsz, hent, elemsNamed_cons_openElem, elemsNamed_append,
      elemsNamed_cons_subElem, elemsNamed_nil, elemsNamed_done]
  · intro p l hsz hoff hlen
    simp only [stco_dump, hoff, hsz]
    rw [← hlen]
    simp [stco_range_rows, elemsNamed_cons_openElem, elemsNamed_append,
      elemsNamed_nil, elemsNamed_done, elemsNamed_stco_map, hsz]
  · intro p hsz hnb
    simp [stco_dump, hsz, hnb, elemsNamed_cons_openElem, elemsNamed_append,
      elemsNamed_cons_subElem, elemsNamed_nil, elemsNamed_done]
  · intro p hsz
    simp [sbgp_dump, hsz, elemsNamed_cons_openElem, elemsNamed_append,
      elemsNamed_nil, elemsNamed_done, elemsNamed_sbgp_rows]
  · intro p hsz hent
    simp [sbgp_dump, hsz, hent, elemsNamed_cons_openElem, elemsNamed_append,
      elemsNamed_cons_subElem, elemsNamed_nil, elemsNamed_done]

/-- Witness for C6: a two-row stts box, its schema probe, a two-offset stco box, its
schema probe, a one-row sbgp box and its schema probe. -/
theorem c6_witness :
    elemsNamed "TimeToSampleEntry"
      (stts_dump ⟨GF_ISOM_BOX_TYPE_STTS, 32, 0, 0, [⟨10, 2⟩, ⟨5, 1⟩], none⟩).1 =
      [Out.subElem "TimeToSampleEntry" [("SampleDelta", AttrVal.num 10), ("SampleCount", AttrVal.num 2)],
       Out.subElem "TimeToSampleEntry" [("SampleDelta", AttrVal.num 5), ("SampleCount", AttrVal.num 1)]] ∧
    elemsNamed "TimeToSampleEntry"
      (stts_dump ⟨GF_ISOM_BOX_TYPE_STTS, 0, 0, 0, [], none⟩).1 =
      [Out.subElem "TimeToSampleEntry" [("SampleDelta", AttrVal.empty), ("SampleCount", AttrVal.empty)]] ∧
    elemsNamed "ChunkEntry"
      (stco_dump ⟨GF_ISOM_BOX_TYPE_STCO, 24, 0, 0, 2, some [64, 128], none⟩).1 =
      [Out.subElem "ChunkEntry" [("offset", AttrVal.num 64)],
       Out.subElem "ChunkEntry" [("offset", AttrVal.num 128)]] ∧
    elemsNamed "ChunkEntry"
      (stco_dump ⟨GF_ISOM_BOX_TYPE_STCO, 0, 0, 0, 0, none, none⟩).1 =
      [Out.subElem "ChunkEntry" [("offset", AttrVal.empty)]] ∧
    elemsNamed "SampleGroupBoxEntry"
      (sbgp_dump ⟨GF_ISOM_BOX_TYPE_SBGP, 28, 1, 0, GF_ISOM_SAMPLE_GROUP_ROLL, 0, [⟨3, 1⟩], none⟩).1 =
      [Out.subElem "SampleGroupBoxEntry"
        [("sample_count", AttrVal.num 3), ("group_description_index", AttrVal.num 1)]] ∧
    elemsNamed "SampleGroupBoxEntry"
      (sbgp_dump ⟨GF_ISOM_BOX_TYPE_SBGP, 0, 1, 0, GF_ISOM_SAMPLE_GROUP_ROLL, 0, [], none⟩).1 =
      [Out.subElem "SampleGroupBoxEntry"
        [("sample_count", AttrVal.empty), ("group_description_index", AttrVal.empty)]] := by
  refine ⟨?_, ?_, ?_, ?_, ?_, ?_⟩
  · simpa using c6_placeholder_parity.1 _ (by decide)
  · simpa using c6_placeholder_parity.2.1 _ (by decide) rfl
  · simpa using c6_placeholder_parity.2.2.1 _ [64, 128] (by decide) rfl rfl
  · simpa using c6_placeholder_parity.2.2.2.1 _ (by decide) rfl
  · simpa using c6_placeholder_parity.2.2.2.2.1 _ (by decide)
  · simpa using c6_placeholder_parity.2.2.2.2.2 _ (by decide) rfl

theorem countP_nullBox_of_all_invoke (l : List Out) (h : l.all Out.isInvoke = true) :
    l.countP Out.isNullBoxDiag = 0 := by
  apply List.countP_eq_zero.mpr
  intro a ha
  have := List.all_eq_true.mp h a ha
  cases a <;> simp_all [Out.isInvoke, Out.isNullBoxDiag]

theorem optDump_no_nullBox (b : Option Nat) :
    (optDump b).1.countP Out.isNullBoxDiag = 0 := by
  cases b with
  | none => rfl
  | some t => exact countP_nullBox_of_all_invoke _ (gf_box_dump_trace_all_invoke t)

theorem optArrayDump_no_nullBox (lo : Option (List Nat)) :
    (optArrayDump lo).1.countP Out.isNullBoxDiag = 0 := by
  cases lo with
  | none => rfl
  | some xs => exact countP_nullBox_of_all_invoke _ (gf_box_array_dump_all_invoke xs)

theorem gf_box_dump_done_trace (nm : String) (other : Option (List Nat)) :
    (gf_box_dump_done (some nm) other).1 = (optArrayDump other).1 ++ [Out.closeElem nm] := by
  cases other <;> simp [gf_box_dump_done, optArrayDump]

theorem done_no_nullBox (nm : String) (other : Option (List Nat)) :
    (gf_box_dump_done (some nm) other).1.countP Out.isNullBoxDiag = 0 := by
  rw [gf_box_dump_done_trace, List.countP_append, optArrayDump_no_nullBox]
  simp [Out.isNullBoxDiag]

/-- C7 as stated is false at the synthetic schema probe: a sample table with zero size
and no children renders as nothing but its opening and closing markers — the
size-guarded named slots are skipped silently, producing neither a child rendering nor
any placeholder or diagnostic for the slot. -/
theorem c7_counterexample :
    stbl_dump ⟨GF_ISOM_BOX_TYPE_STBL, 0, none, none, none, none, none, none, none, none,
        none, none, none, none, none, none, none, none, none, none, none⟩ =
      ([Out.openElem "SampleTableBox"
          [("Size", AttrVal.num 0), ("Type", AttrVal.fourCC GF_ISOM_BOX_TYPE_STBL)],
        Out.closeElem "SampleTableBox"], [], GF_Err.GF_OK) ∧
    (stbl_dump ⟨GF_ISOM_BOX_TYPE_STBL, 0, none, none, none, none, none, none, none, none,
        none, none, none, none, none, none, none, none, none, none, none⟩).1.countP
      Out.isNullBoxDiag = 0 ∧
    (stbl_dump ⟨GF_ISOM_BOX_TYPE_STBL, 0, none, none, none, none, none, none, none, none,
        none, none, none, none, none, none, none, none, none, none, none⟩).1.countP
      Out.isInvoke = 0 :=
  ⟨by decide, by decide, by decide⟩

theorem stbl_slot_stsd_mem (p : GF_SampleTableBox) (hsz : p.size ≠ 0) :
    ∀ o ∈ (gf_box_dump_ex p.SampleDescription GF_ISOM_BOX_TYPE_STSD).1,
      o ∈ (stbl_dump p).1 := by
  intro o ho
  simp only [stbl_dump, sizedSlot, if_pos hsz]
  simp [List.mem_cons, List.mem_append]
  tauto

theorem stbl_slot_stco_mem (p : GF_SampleTableBox) (hsz : p.size ≠ 0) :
    ∀ o ∈ (gf_box_dump_ex p.ChunkOffset GF_ISOM_BOX_TYPE_STCO).1,
      o ∈ (stbl_dump p).1 := by
  intro o ho
  simp only [stbl_dump, sizedSlot, if_pos hsz]
  simp [List.mem_cons, List.mem_append]
  tauto

/-- C7 amended: the size-guarded named slots of stbl_dump (stsd, stts, stsc, stsz,
stco) and of dinf_dump (dref) are rendered only when the node's recorded size is
nonzero — when the size is zero they are skipped with no output at all (no null-box
diagnostic appears anywhere in the trace), and when the size is nonzero the slot's
dispatch output is embedded in the trace, which for an absent mandatory child is the
null-box diagnostic naming the expected type; the generic overflow child list is
rendered after all named slots, immediately before the closing marker. -/
theorem c7_amended_sized_slots :
    (∀ p : GF_SampleTableBox, p.size = 0 →
      (stbl_dump p).1.countP Out.isNullBoxDiag = 0) ∧
    (∀ p : GF_SampleTableBox, p.size ≠ 0 →
      (∀ o ∈ (gf_box_dump_ex p.SampleDescription GF_ISOM_BOX_TYPE_STSD).1, o ∈ (stbl_dump p).1) ∧
      (∀ o ∈ (gf_box_dump_ex p.ChunkOffset GF_ISOM_BOX_TYPE_STCO).1, o ∈ (stbl_dump p).1)) ∧
    (∀ p : GF_SampleTableBox, p.size ≠ 0 → p.SampleDescription = none →
      Out.nullBoxExpected GF_ISOM_BOX_TYPE_STSD ∈ (stbl_dump p).1) ∧
    (∀ p : GF_SampleTableBox,
      (stbl_dump p).1 =
        Out.openElem "SampleTableBox" (DumpBoxAttrs p.type p.size) ::
          ((sizedSlot p.size p.SampleDescription GF_ISOM_BOX_TYPE_STSD).1 ++
           (sizedSlot p.size p.TimeToSample GF_ISOM_BOX_TYPE_STTS).1 ++
           (optDump p.CompositionOffset).1 ++ (optDump p.CompositionToDecode).1 ++
           (optDump p.SyncSample).1 ++ (optDump p.ShadowSync).1 ++
           (sizedSlot p.size p.SampleToChunk GF_ISOM_BOX_TYPE_STSC).1 ++
           (sizedSlot p.size p.SampleSize GF_ISOM_BOX_TYPE_STSZ).1 ++
           (sizedSlot p.size p.ChunkOffset GF_ISOM_BOX_TYPE_STCO).1 ++
           (optDump p.DegradationPriority).1 ++ (optDump p.SampleDep).1 ++
           (optDump p.PaddingBits).1 ++ (optDump p.Fragments).1 ++
           (optArrayDump p.sub_samples).1 ++ (optArrayDump p.sampleGroupsDescription).1 ++
           (optArrayDump p.sampleGroups).1 ++ (optArrayDump p.sai_sizes).1 ++
           (optArrayDump p.sai_offsets).1) ++
          (optArrayDump p.other_boxes).1 ++ [Out.closeElem "SampleTableBox"]) ∧
    (∀ p : GF_DataInformationBox, p.size = 0 →
      (dinf_dump p).1.countP Out.isNullBoxDiag = 0) ∧
    (∀ p : GF_DataInformationBox, p.size ≠ 0 →
      ∀ o ∈ (gf_box_dump_ex p.dref GF_ISOM_BOX_TYPE_DREF).1, o ∈ (dinf_dump p).1) := by
  refine ⟨?_, ?_, ?_, ?_, ?_, ?_⟩
  · intro p hsz
    simp [stbl_dump, sizedSlot, hsz, List.countP_cons, List.countP_append,
      optDump_no_nullBox, optArrayDump_no_nullBox, done_no_nullBox, Out.isNullBoxDiag]
  · intro p hsz
    exact ⟨stbl_slot_stsd_mem p hsz, stbl_slot_stco_mem p hsz⟩
  · intro p hsz hnone
    have h1 : (gf_box_dump_ex p.SampleDescription GF_ISOM_BOX_TYPE_STSD).1 =
        [Out.nullBoxExpected GF_ISOM_BOX_TYPE_STSD] := by
      rw [hnone]
      simp [gf_box_dump_ex]
      decide
    apply stbl_slot_stsd_mem p hsz
    rw [h1]
    exact List.mem_singleton.mpr rfl
  · intro p
    simp [stbl_dump, gf_box_dump_done_trace, List.append_assoc]
  · intro p hsz
    simp [dinf_dump, sizedSlot, hsz, List.countP_cons, List.countP_append,
      done_no_nullBox, Out.isNullBoxDiag]
  · intro p hsz o ho
    simp only [dinf_dump, sizedSlot, if_pos hsz]
    simp [List.mem_cons, List.mem_append]
    tauto

/-- Witness for C7 amended: a real-size sample table with a missing stsd child shows
the expected-type diagnostic; the zero-size probe and a zero-size dinf show no
diagnostic at all. -/
theorem c7_witness :
    Out.nullBoxExpected GF_ISOM_BOX_TYPE_STSD ∈
      (stbl_dump ⟨GF_ISOM_BOX_TYPE_STBL, 100, none, none, none, none, none, none, none,
        none, none, none, none, none, none, none, none, none, none, none, none⟩).1 ∧
    (stbl_dump ⟨GF_ISOM_BOX_TYPE_STBL, 0, none, none, none, none, none, none, none,
        none, none, none, none, none, none, none, none, none, none, none, none⟩).1.countP
      Out.isNullBoxDiag = 0 ∧
    (dinf_dump ⟨GF_ISOM_BOX_TYPE_DINF, 0, none, none⟩).1.countP Out.isNullBoxDiag = 0 :=
  ⟨c7_amended_sized_slots.2.2.1 _ (by decide) rfl,
   c7_amended_sized_slots.1 _ rfl,
   c7_amended_sized_slots.2.2.2.2.1 _ rfl⟩

end BoxDump
